import Mathlib

/-!
# Taskify front end

A shallow embedding of the API access layer (`services/api.js`), the session
handling spread over `App.js`, `Login.jsx`, `Register.jsx`, `Header.jsx` and
`Sidebar.jsx`, and the dashboard statistics of `Dashboard.jsx`.

Browser globals (`localStorage`, `window.location`) are threaded explicitly as a
`Browser` value.  Promises are represented by their settled outcome.
-/

namespace Taskify

/-! ## String-keyed dictionaries (plain JS objects with string values) -/

/-- A dictionary with string keys and string values. -/
abbrev Dict := List (String × String)

/-- Property read: the value stored under `key`, if any. -/
def lookupKey (d : Dict) (key : String) : Option String :=
  match d with
  | [] => none
  | (k, v) :: rest => if k = key then some v else lookupKey rest key

/-- Property delete: every entry stored under `key` is dropped. -/
def removeKey (d : Dict) (key : String) : Dict :=
  match d with
  | [] => []
  | (k, v) :: rest => if k = key then removeKey rest key else (k, v) :: removeKey rest key

/-- Property write: `key` is bound to `value`, replacing an earlier binding. -/
def insertKey (d : Dict) (key value : String) : Dict :=
  (key, value) :: removeKey d key

/-! ## `window.localStorage` and `window.location` -/

/-- The contents of `window.localStorage`. -/
abbrev Storage := Dict

/-- Models `localStorage.getItem(key)`; `none` is the JS `null`. -/
def getItem (s : Storage) (key : String) : Option String := lookupKey s key

/-- Models `localStorage.setItem(key, value)`. -/
def setItem (s : Storage) (key value : String) : Storage := insertKey s key value

/-- Models `localStorage.removeItem(key)`. -/
def removeItem (s : Storage) (key : String) : Storage := removeKey s key

/-- Models `v || fallback` for `v : string | null | undefined`: a missing value
and the empty string are falsy. -/
def orElse (v : Option String) (fallback : String) : String :=
  match v with
  | some t => if t != "" then t else fallback
  | none => fallback

/-! ## Domain records -/

/-- A task as sent by the server; `extra` holds any further fields. -/
structure Task where
  id : Nat
  title : String
  description : Option String
  status : String
  extra : Dict
  deriving DecidableEq, Repr

/-- An appointment as sent by the server.  `date` is the time value (ms since
the epoch) of `new Date(a.date)`; `none` stands for an Invalid Date (NaN). -/
structure Appointment where
  id : Nat
  subject : String
  date : Option Int
  extra : Dict
  deriving DecidableEq, Repr

/-- Request bodies passed to the API functions by their call sites. -/
inductive Body where
  | credentials (email password : String)
  | task (t : Task)
  | taskForm (title description status : String)
  | appointmentForm (subject date : String)
  deriving DecidableEq, Repr

/-! ## The axios instance of `services/api.js` -/

/-- An axios request configuration. -/
structure RequestConfig where
  method : String
  url : String
  baseURL : String
  data : Option Body
  headers : Dict
  deriving DecidableEq, Repr

/-! ## Browser state -/

/-- The browser globals the code touches, with a log of its observable effects. -/
structure Browser where
  /-- Contents of `window.localStorage`. -/
  localStorage : Storage
  /-- Current value of `window.location.href`. -/
  href : String
  /-- Every value assigned to `window.location.href` so far, oldest first. -/
  hrefAssignments : List String
  /-- Every target passed to the router function `navigate`, oldest first. -/
  routerNavigations : List String
  /-- Every request handed to the transport so far, oldest first. -/
  network : List RequestConfig
  deriving DecidableEq, Repr

/-- Models the statement `window.location.href = target`. -/
def assignHref (b : Browser) (target : String) : Browser :=
  { b with href := target, hrefAssignments := b.hrefAssignments ++ [target] }

/-- Models the router call `navigate(target)`. -/
def navigate (b : Browser) (target : String) : Browser :=
  { b with routerNavigations := b.routerNavigations ++ [target] }

/-- Reads header `name` of a configuration's header object. -/
def getHeader (headers : Dict) (name : String) : Option String := lookupKey headers name

/-- The body of an error response: the optional `error` field. -/
structure ErrorBody where
  error : Option String
  deriving DecidableEq, Repr

/-- The `response` object attached to an axios error. -/
structure ErrorResponse where
  status : Nat
  data : Option ErrorBody
  deriving DecidableEq, Repr

/-- An axios error; `response` is absent when no response was received. -/
structure AxiosError where
  message : String
  response : Option ErrorResponse
  deriving DecidableEq, Repr

/-- A successful axios response carrying `data`. -/
structure Response (α : Type) where
  status : Nat
  data : α
  deriving DecidableEq, Repr

/-- The settled outcome of a promise returned by the axios instance. -/
inductive Settled (α : Type) where
  | fulfilled (value : α)
  | rejected (reason : AxiosError)
  deriving DecidableEq, Repr

/-- Models `process.env.REACT_APP_API_URL || "http://localhost:8080/api"`
(`api.js` line 5); `none` is an unset variable. -/
def API_BASE_URL (env : Option String) : String :=
  match env with
  | some v => if v != "" then v else "http://localhost:8080/api"
  | none => "http://localhost:8080/api"

/-- The configuration `api.<verb>(url, data)` hands to the request interceptors:
the instance defaults of `axios.create` (`api.js` lines 8-13) plus verb, path and body. -/
def mkConfig (env : Option String) (method url : String) (data : Option Body) : RequestConfig :=
  { method := method, url := url, baseURL := API_BASE_URL env, data := data,
    headers := [("Content-Type", "application/json")] }

/-- Request interceptor, success handler (`api.js` lines 17-23).  The test
`if (token)` holds for a non-empty string only. -/
def requestInterceptor (ls : Storage) (config : RequestConfig) : RequestConfig :=
  match getItem ls "token" with
  | some token =>
    if token != "" then
      { config with headers := insertKey config.headers "Authorization" ("Bearer " ++ token) }
    else config
  | none => config

/-- Response interceptor, success handler (`api.js` line 31). -/
def responseFulfilled {α : Type} (response : α) : α := response

/-- Response interceptor, error handler (`api.js` lines 32-40): the pair of the
browser state afterwards and the promise it returns. -/
def responseRejected {α : Type} (error : AxiosError) (b : Browser) : Browser × Settled α :=
  let b1 :=
    if (error.response.map (fun r => r.status)) = some 401 then
      assignHref
        { b with localStorage := removeItem (removeItem b.localStorage "token") "email" }
        "/login"
    else b
  (b1, Settled.rejected error)

/-- First half of a request through the instance: the request interceptor runs
on the configuration and the result is handed to the transport (and logged). -/
def api.dispatch (config : RequestConfig) (b : Browser) : RequestConfig × Browser :=
  let sent := requestInterceptor b.localStorage config
  (sent, { b with network := b.network ++ [sent] })

/-- Second half of a request: the outcome of the transport passes through the
response interceptor. -/
def api.settle {α : Type} (outcome : Settled (Response α)) (b : Browser) :
    Browser × Settled (Response α) :=
  match outcome with
  | Settled.fulfilled response => (b, Settled.fulfilled (responseFulfilled response))
  | Settled.rejected error => responseRejected error b

/-- A whole request.  `server` gives the outcome of the transport for the
configuration it receives: `fulfilled` for a 2xx response, `rejected` for any
other status or for a network failure. -/
def api.send {α : Type} (server : RequestConfig → Settled (Response α))
    (config : RequestConfig) (b : Browser) : Browser × Settled (Response α) :=
  match api.dispatch config b with
  | (sent, b1) => api.settle (server sent) b1

/-! ### Auth API (`api.js` lines 44-53) -/

/-- Models `authAPI.register`. -/
def authAPI.register (env : Option String) (email password : String) : RequestConfig :=
  mkConfig env "post" "/auth/register" (some (Body.credentials email password))

/-- Models `authAPI.login`. -/
def authAPI.login (env : Option String) (email password : String) : RequestConfig :=
  mkConfig env "post" "/auth/login" (some (Body.credentials email password))

/-- Models `authAPI.logout`. -/
def authAPI.logout (env : Option String) : RequestConfig :=
  mkConfig env "post" "/auth/logout" none

/-! ### Tasks API (`api.js` lines 56-71) -/

/-- Models `tasksAPI.getAll`. -/
def tasksAPI.getAll (env : Option String) : RequestConfig :=
  mkConfig env "get" "/tasks" none

/-- Models `tasksAPI.getById`. -/
def tasksAPI.getById (env : Option String) (id : Nat) : RequestConfig :=
  mkConfig env "get" ("/tasks/" ++ toString id) none

/-- Models `tasksAPI.create`. -/
def tasksAPI.create (env : Option String) (task : Body) : RequestConfig :=
  mkConfig env "post" "/tasks" (some task)

/-- Models `tasksAPI.update`. -/
def tasksAPI.update (env : Option String) (id : Nat) (task : Body) : RequestConfig :=
  mkConfig env "put" ("/tasks/" ++ toString id) (some task)

/-- Models `tasksAPI.delete`. -/
def tasksAPI.delete (env : Option String) (id : Nat) : RequestConfig :=
  mkConfig env "delete" ("/tasks/" ++ toString id) none

/-! ### Appointments API (`api.js` lines 74-89) -/

/-- Models `appointmentsAPI.getAll`. -/
def appointmentsAPI.getAll (env : Option String) : RequestConfig :=
  mkConfig env "get" "/appointments" none

/-- Models `appointmentsAPI.getById`. -/
def appointmentsAPI.getById (env : Option String) (id : Nat) : RequestConfig :=
  mkConfig env "get" ("/appointments/" ++ toString id) none

/-- Models `appointmentsAPI.create`. -/
def appointmentsAPI.create (env : Option String) (appointment : Body) : RequestConfig :=
  mkConfig env "post" "/appointments" (some appointment)

/-- Models `appointmentsAPI.update`. -/
def appointmentsAPI.update (env : Option String) (id : Nat) (appointment : Body) :
    RequestConfig :=
  mkConfig env "put" ("/appointments/" ++ toString id) (some appointment)

/-- Models `appointmentsAPI.delete`. -/
def appointmentsAPI.delete (env : Option String) (id : Nat) : RequestConfig :=
  mkConfig env "delete" ("/appointments/" ++ toString id) none

/-- The operations exported by `services/api.js`, with their arguments. -/
inductive ApiCall where
  | authRegister (email password : String)
  | authLogin (email password : String)
  | authLogout
  | tasksGetAll
  | tasksGetById (id : Nat)
  | tasksCreate (task : Body)
  | tasksUpdate (id : Nat) (task : Body)
  | tasksDelete (id : Nat)
  | appointmentsGetAll
  | appointmentsGetById (id : Nat)
  | appointmentsCreate (appointment : Body)
  | appointmentsUpdate (id : Nat) (appointment : Body)
  | appointmentsDelete (id : Nat)
  deriving DecidableEq, Repr

/-- The configuration each exported operation builds. -/
def ApiCall.config (env : Option String) (call : ApiCall) : RequestConfig :=
  match call with
  | ApiCall.authRegister email password => authAPI.register env email password
  | ApiCall.authLogin email password => authAPI.login env email password
  | ApiCall.authLogout => authAPI.logout env
  | ApiCall.tasksGetAll => tasksAPI.getAll env
  | ApiCall.tasksGetById id => tasksAPI.getById env id
  | ApiCall.tasksCreate task => tasksAPI.create env task
  | ApiCall.tasksUpdate id task => tasksAPI.update env id task
  | ApiCall.tasksDelete id => tasksAPI.delete env id
  | ApiCall.appointmentsGetAll => appointmentsAPI.getAll env
  | ApiCall.appointmentsGetById id => appointmentsAPI.getById env id
  | ApiCall.appointmentsCreate appointment => appointmentsAPI.create env appointment
  | ApiCall.appointmentsUpdate id appointment => appointmentsAPI.update env id appointment
  | ApiCall.appointmentsDelete id => appointmentsAPI.delete env id

/-- Whether the operation is `authAPI.register` or `authAPI.login`. -/
def ApiCall.isRegisterOrLogin (call : ApiCall) : Bool :=
  match call with
  | ApiCall.authRegister _ _ => true
  | ApiCall.authLogin _ _ => true
  | _ => false

/-! ## Session handling in the components -/

/-- Models `isAuthenticated` (`App.js` lines 13-15). -/
def isAuthenticated (ls : Storage) : Bool :=
  (getItem ls "token").isSome

/-- What a route element renders to. -/
inductive Element where
  | page (name : String)
  | navigateTo (target : String) (replace : Bool)
  | dashboardLayout (children : Element)
  deriving DecidableEq, Repr

/-- Models `ProtectedRoute` (`App.js` lines 20-25). -/
def ProtectedRoute (ls : Storage) (children : Element) : Element :=
  if !isAuthenticated ls then Element.navigateTo "/login" true
  else Element.dashboardLayout children

/-- The identity `Header` displays (`Header.jsx` line 6). -/
def Header.email (ls : Storage) : String :=
  orElse (getItem ls "userEmail") "User"

/-- Models `handleLogout` of `Sidebar` (`Sidebar.jsx` lines 19-23). -/
def Sidebar.handleLogout (b : Browser) : Browser :=
  assignHref
    { b with localStorage := removeItem (removeItem b.localStorage "token") "userEmail" }
    "/login"

/-- The `data` of a successful login or registration response. -/
structure AuthData where
  token : String
  email : String
  deriving DecidableEq, Repr

/-- The message a page shows for a failed request:
`err.response?.data?.error || fallback`. -/
def errorMessage (err : AxiosError) (fallback : String) : String :=
  orElse ((err.response.bind (fun r => r.data)).bind (fun d => d.error)) fallback

/-- Component state of the `Login` page. -/
structure LoginState where
  email : String
  password : String
  error : String
  loading : Bool
  deriving DecidableEq, Repr

/-- Models `handleSubmit` of `Login` (`Login.jsx` lines 27-46). -/
def Login.handleSubmit (env : Option String)
    (server : RequestConfig → Settled (Response AuthData))
    (st : LoginState) (b : Browser) : LoginState × Browser :=
  match api.send server (authAPI.login env st.email st.password) b with
  | (b1, Settled.fulfilled response) =>
    let ls1 := setItem b1.localStorage "token" response.data.token
    let ls2 := setItem ls1 "email" response.data.email
    ({ st with error := "", loading := false },
      navigate { b1 with localStorage := ls2 } "/tasks")
  | (b1, Settled.rejected err) =>
    ({ st with error := errorMessage err "Login failed. Please try again.", loading := false },
      b1)

/-- JS `String.prototype.length`: the number of UTF-16 code units. -/
def jsLength (s : String) : Nat :=
  (s.toList.map (fun c => if c.toNat < 65536 then 1 else 2)).sum

/-- Component state of the `Register` page. -/
structure RegisterState where
  email : String
  password : String
  confirmPassword : String
  error : String
  loading : Bool
  deriving DecidableEq, Repr

/-- Models `handleSubmit` of `Register` (`Register.jsx` lines 28-58). -/
def Register.handleSubmit (env : Option String)
    (server : RequestConfig → Settled (Response AuthData))
    (st : RegisterState) (b : Browser) : RegisterState × Browser :=
  if st.password ≠ st.confirmPassword then
    ({ st with error := "Passwords do not match", loading := false }, b)
  else if jsLength st.password < 4 then
    ({ st with error := "Password must be at least 4 characters", loading := false }, b)
  else
    match api.send server (authAPI.register env st.email st.password) b with
    | (b1, Settled.fulfilled response) =>
      let ls1 := setItem b1.localStorage "token" response.data.token
      let ls2 := setItem ls1 "email" response.data.email
      ({ st with error := "", loading := false },
        navigate { b1 with localStorage := ls2 } "/tasks")
    | (b1, Settled.rejected err) =>
      ({ st with error := errorMessage err "Registration failed. Please try again.",
                 loading := false }, b1)

/-! ## Dashboard statistics (`Dashboard.jsx`) -/

/-- The `stats` state of the dashboard. -/
structure Stats where
  totalTasks : Nat
  pendingTasks : Nat
  completedTasks : Nat
  upcomingAppointments : Nat
  recentTasks : List Task
  nextAppointment : Option Appointment
  deriving DecidableEq, Repr

/-- The initial `stats` (`Dashboard.jsx` lines 11-18). -/
def Dashboard.initialStats : Stats :=
  { totalTasks := 0, pendingTasks := 0, completedTasks := 0, upcomingAppointments := 0,
    recentTasks := [], nextAppointment := none }

/-- The filter predicate `a => new Date(a.date) > now` (line 38); a comparison
with an Invalid Date is false. -/
def Dashboard.isAfterNow (now : Int) (a : Appointment) : Bool :=
  match a.date with
  | some d => decide (now < d)
  | none => false

/-- The comparator `(a, b) => new Date(a.date) - new Date(b.date)` (line 39);
`none` is NaN. -/
def Dashboard.compareDates (a b : Appointment) : Option Int :=
  match a.date, b.date with
  | some x, some y => some (x - y)
  | _, _ => none

/-- Whether the comparator does not place `a` after `b`: its result is not
positive (a NaN result counts as zero). -/
def Dashboard.notAfter (a b : Appointment) : Bool :=
  match Dashboard.compareDates a b with
  | some d => decide (d ≤ 0)
  | none => true

/-- Models `Array.prototype.sort` with the date comparator: a stable sort. -/
def Dashboard.sortByDate (l : List Appointment) : List Appointment :=
  l.insertionSort (fun a b => Dashboard.notAfter a b = true)

/-- The list `upcoming` (lines 37-39). -/
def Dashboard.upcoming (appointments : List Appointment) (now : Int) : List Appointment :=
  Dashboard.sortByDate (appointments.filter (Dashboard.isAfterNow now))

/-- The statistics computed from the two fetched collections (lines 29-48);
`now` is the time value of `new Date()`. -/
def Dashboard.computeStats (tasks : List Task) (appointments : List Appointment)
    (now : Int) : Stats :=
  let pendingTasks := tasks.filter (fun t => t.status == "TODO")
  let completedTasks := tasks.filter (fun t => t.status == "DONE")
  let upcoming := Dashboard.upcoming appointments now
  { totalTasks := tasks.length,
    pendingTasks := pendingTasks.length,
    completedTasks := completedTasks.length,
    upcomingAppointments := upcoming.length,
    recentTasks := tasks.take 5,
    nextAppointment := if upcoming.length > 0 then upcoming.head? else none }

/-- Component state of the `Dashboard` page. -/
structure DashboardState where
  loading : Bool
  stats : Stats
  deriving DecidableEq, Repr

/-- Models `fetchData` (lines 21-54).  Both requests are issued before either
response is handled (`Promise.all`); the statistics are replaced only when both
promises fulfil. -/
def Dashboard.fetchData (env : Option String)
    (tasksServer : RequestConfig → Settled (Response (List Task)))
    (appointmentsServer : RequestConfig → Settled (Response (List Appointment)))
    (now : Int) (st : DashboardState) (b : Browser) : DashboardState × Browser :=
  match api.dispatch (tasksAPI.getAll env) b with
  | (sentTasks, b1) =>
    match api.dispatch (appointmentsAPI.getAll env) b1 with
    | (sentAppointments, b2) =>
      match api.settle (tasksServer sentTasks) b2 with
      | (b3, tasksRes) =>
        match api.settle (appointmentsServer sentAppointments) b3 with
        | (b4, appointmentsRes) =>
          match tasksRes, appointmentsRes with
          | Settled.fulfilled t, Settled.fulfilled a =>
            ({ loading := false, stats := Dashboard.computeStats t.data a.data now }, b4)
          | _, _ => ({ st with loading := false }, b4)

/-- The state of the `Dashboard` page when it mounts (`Dashboard.jsx` lines 10-18). -/
def Dashboard.initialState : DashboardState :=
  { loading := true, stats := Dashboard.initialStats }

/-! ## The `Tasks` page (`Tasks.jsx`) -/

/-- The form of the task dialog. -/
structure TaskForm where
  title : String
  description : String
  status : String
  deriving DecidableEq, Repr

/-- Component state of the `Tasks` page. -/
structure TasksState where
  tasks : List Task
  loading : Bool
  error : String
  showModal : Bool
  editingTask : Option Task
  formData : TaskForm
  saving : Bool
  deriving DecidableEq, Repr

/-- The blank task form (`Tasks.jsx` lines 16-20). -/
def Tasks.blankForm : TaskForm :=
  { title := "", description := "", status := "TODO" }

/-- Models `fetchTasks` (`Tasks.jsx` lines 27-38). -/
def Tasks.fetchTasks (env : Option String)
    (listServer : RequestConfig → Settled (Response (List Task)))
    (st : TasksState) (b : Browser) : TasksState × Browser :=
  match api.send listServer (tasksAPI.getAll env) b with
  | (b1, Settled.fulfilled response) =>
    ({ st with tasks := response.data, error := "", loading := false }, b1)
  | (b1, Settled.rejected _) =>
    ({ st with error := "Failed to load tasks", loading := false }, b1)

/-- Models `closeModal` (`Tasks.jsx` lines 68-76). -/
def Tasks.closeModal (st : TasksState) : TasksState :=
  { st with showModal := false, editingTask := none, formData := Tasks.blankForm }

/-- Models `handleSubmit` of `Tasks` (`Tasks.jsx` lines 78-95).  `writeServer`
answers the create or update request, `listServer` the reload that follows a
successful save. -/
def Tasks.handleSubmit (env : Option String)
    (writeServer : RequestConfig → Settled (Response Unit))
    (listServer : RequestConfig → Settled (Response (List Task)))
    (st : TasksState) (b : Browser) : TasksState × Browser :=
  let body := Body.taskForm st.formData.title st.formData.description st.formData.status
  let request :=
    match st.editingTask with
    | some editingTask => tasksAPI.update env editingTask.id body
    | none => tasksAPI.create env body
  match api.send writeServer request b with
  | (b1, Settled.fulfilled _) =>
    match Tasks.fetchTasks env listServer (Tasks.closeModal st) b1 with
    | (st1, b2) => ({ st1 with saving := false }, b2)
  | (b1, Settled.rejected err) =>
    ({ st with error := errorMessage err "Failed to save task", saving := false }, b1)

/-- Models `handleDelete` of `Tasks` (`Tasks.jsx` lines 97-106); `confirmed` is
the answer of `window.confirm`. -/
def Tasks.handleDelete (env : Option String) (confirmed : Bool)
    (writeServer : RequestConfig → Settled (Response Unit))
    (listServer : RequestConfig → Settled (Response (List Task)))
    (id : Nat) (st : TasksState) (b : Browser) : TasksState × Browser :=
  if confirmed then
    match api.send writeServer (tasksAPI.delete env id) b with
    | (b1, Settled.fulfilled _) => Tasks.fetchTasks env listServer st b1
    | (b1, Settled.rejected _) => ({ st with error := "Failed to delete task" }, b1)
  else (st, b)

/-- Models `toggleStatus` (`Tasks.jsx` lines 108-116). -/
def Tasks.toggleStatus (env : Option String)
    (writeServer : RequestConfig → Settled (Response Unit))
    (listServer : RequestConfig → Settled (Response (List Task)))
    (task : Task) (st : TasksState) (b : Browser) : TasksState × Browser :=
  let newStatus := if task.status = "TODO" then "DONE" else "TODO"
  match api.send writeServer
      (tasksAPI.update env task.id (Body.task { task with status := newStatus })) b with
  | (b1, Settled.fulfilled _) => Tasks.fetchTasks env listServer st b1
  | (b1, Settled.rejected _) => ({ st with error := "Failed to update task status" }, b1)

/-- The body `toggleStatus` computes for the update (`Tasks.jsx` lines 110-111):
`{ ...task, status: task.status === "TODO" ? "DONE" : "TODO" }`. -/
def Tasks.toggleBody (task : Task) : Task :=
  { task with status := if task.status = "TODO" then "DONE" else "TODO" }

/-! ## The `Appointments` page (`Appointments.jsx`) -/

/-- The form of the appointment dialog. -/
structure AppointmentForm where
  subject : String
  date : String
  deriving DecidableEq, Repr

/-- Component state of the `Appointments` page. -/
structure AppointmentsState where
  appointments : List Appointment
  loading : Bool
  error : String
  showModal : Bool
  editingAppointment : Option Appointment
  formData : AppointmentForm
  saving : Bool
  deriving DecidableEq, Repr

/-- Models `fetchAppointments` (`Appointments.jsx` lines 26-37). -/
def Appointments.fetchAppointments (env : Option String)
    (listServer : RequestConfig → Settled (Response (List Appointment)))
    (st : AppointmentsState) (b : Browser) : AppointmentsState × Browser :=
  match api.send listServer (appointmentsAPI.getAll env) b with
  | (b1, Settled.fulfilled response) =>
    ({ st with appointments := response.data, error := "", loading := false }, b1)
  | (b1, Settled.rejected _) =>
    ({ st with error := "Failed to load appointments", loading := false }, b1)

/-- Models `closeModal` (`Appointments.jsx` lines 67-74). -/
def Appointments.closeModal (st : AppointmentsState) : AppointmentsState :=
  { st with showModal := false, editingAppointment := none,
            formData := { subject := "", date := "" } }

/-- Models `handleSubmit` of `Appointments` (`Appointments.jsx` lines 76-98). -/
def Appointments.handleSubmit (env : Option String)
    (writeServer : RequestConfig → Settled (Response Unit))
    (listServer : RequestConfig → Settled (Response (List Appointment)))
    (st : AppointmentsState) (b : Browser) : AppointmentsState × Browser :=
  let appointmentData := Body.appointmentForm st.formData.subject st.formData.date
  let request :=
    match st.editingAppointment with
    | some editingAppointment => appointmentsAPI.update env editingAppointment.id appointmentData
    | none => appointmentsAPI.create env appointmentData
  match api.send writeServer request b with
  | (b1, Settled.fulfilled _) =>
    match Appointments.fetchAppointments env listServer (Appointments.closeModal st) b1 with
    | (st1, b2) => ({ st1 with saving := false }, b2)
  | (b1, Settled.rejected err) =>
    ({ st with error := errorMessage err "Failed to save appointment", saving := false }, b1)

/-- Models `handleDelete` of `Appointments` (`Appointments.jsx` lines 100-109);
`confirmed` is the answer of `window.confirm`. -/
def Appointments.handleDelete (env : Option String) (confirmed : Bool)
    (writeServer : RequestConfig → Settled (Response Unit))
    (listServer : RequestConfig → Settled (Response (List Appointment)))
    (id : Nat) (st : AppointmentsState) (b : Browser) : AppointmentsState × Browser :=
  if confirmed then
    match api.send writeServer (appointmentsAPI.delete env id) b with
    | (b1, Settled.fulfilled _) => Appointments.fetchAppointments env listServer st b1
    | (b1, Settled.rejected _) => ({ st with error := "Failed to delete appointment" }, b1)
  else (st, b)

/-! ## Session events -/

/-- The events that write or clear the session. -/
inductive SessionEvent where
  /-- A login answered successfully with the given data. -/
  | login (d : AuthData)
  /-- A registration answered successfully with the given data. -/
  | register (d : AuthData)
  /-- A click on sign out. -/
  | signOut
  /-- A response with status 401 received by the axios instance. -/
  | unauthorized
  deriving DecidableEq, Repr

/-- A login form as submitted. -/
def sampleLogin : LoginState :=
  { email := "ann@example.com", password := "secret", error := "", loading := false }

/-- A registration form that passes both local checks. -/
def sampleRegistration : RegisterState :=
  { email := "ann@example.com", password := "secret", confirmPassword := "secret",
    error := "", loading := false }

/-- The browser after one session event, computed by the handler of the event. -/
def SessionEvent.apply (ev : SessionEvent) (b : Browser) : Browser :=
  match ev with
  | SessionEvent.login d =>
    (Login.handleSubmit none (fun _ => Settled.fulfilled { status := 200, data := d })
      sampleLogin b).2
  | SessionEvent.register d =>
    (Register.handleSubmit none (fun _ => Settled.fulfilled { status := 201, data := d })
      sampleRegistration b).2
  | SessionEvent.signOut => Sidebar.handleLogout b
  | SessionEvent.unauthorized =>
    (responseRejected
      { message := "Request failed", response := some { status := 401, data := none } } b :
      Browser × Settled Unit).1

/-- The browser after a sequence of session events, oldest first. -/
def runSession (events : List SessionEvent) (b : Browser) : Browser :=
  events.foldl (fun acc ev => ev.apply acc) b

/-! ## JS numbers

A finite JS number is an IEEE 754 binary64 value; it is represented by the
rational it denotes.  Arithmetic rounds the exact result to the nearest
binary64 value. -/

/-- The integer nearest to `q`, a tie going to the even one. -/
def roundHalfEven (q : ℚ) : ℤ :=
  if q - ⌊q⌋ < 1 / 2 then ⌊q⌋
  else if 1 / 2 < q - ⌊q⌋ then ⌊q⌋ + 1
  else if ⌊q⌋ % 2 = 0 then ⌊q⌋ else ⌊q⌋ + 1

/-- The binary64 value nearest to `q` (round to nearest, ties to even).  The
significand has 53 bits, so the spacing around `q` is `2 ^ (e - 52)` for the
binary exponent `e` of `q`; below `2 ^ (-1022)` the spacing stays
`2 ^ (-1074)`.  Overflow to `Infinity` is not represented: the numbers rounded
in this development are at most 100. -/
def toDouble (q : ℚ) : ℚ :=
  let e : ℤ := max (Int.log 2 |q|) (-1022)
  let ulp : ℚ := 2 ^ (e - 52)
  roundHalfEven (q / ulp) * ulp

/-- JS `a / b` on finite numbers, `b` not zero. -/
def Number.div (a b : ℚ) : ℚ := toDouble (a / b)

/-- JS `a * b` on finite numbers. -/
def Number.mul (a b : ℚ) : ℚ := toDouble (a * b)

/-- JS `Math.round`: the nearest integer, a tie going towards positive infinity. -/
def Math.round (x : ℚ) : ℤ := ⌊x + 1 / 2⌋

/-- The number shown on the completion rate card (`Dashboard.jsx` line 112):
`stats.totalTasks ? Math.round((stats.completedTasks / stats.totalTasks) * 100) : 0`.
The two counts are array lengths, hence integers below `2 ^ 32` and exact as
JS numbers. -/
def Dashboard.completionRate (stats : Stats) : ℤ :=
  if stats.totalTasks ≠ 0 then
    Math.round (Number.mul (Number.div stats.completedTasks stats.totalTasks) 100)
  else 0

/-! ## Sample data -/

/-- A task with the given id and status. -/
def sampleTask (id : Nat) (status : String) : Task :=
  { id := id, title := "X", description := none, status := status, extra := [] }

/-- Two `TODO` tasks followed by three `DONE` tasks. -/
def sampleTasks : List Task :=
  [sampleTask 1 "TODO", sampleTask 2 "TODO", sampleTask 3 "DONE", sampleTask 4 "DONE",
   sampleTask 5 "DONE"]

/-- Milliseconds in a day. -/
def msPerDay : Int := 86400000

/-- An appointment with the given id and time value. -/
def sampleAppointment (id : Nat) (date : Int) : Appointment :=
  { id := id, subject := "meeting", date := some date, extra := [] }

/-- Appointments dated yesterday, tomorrow and in three days, relative to `now`. -/
def sampleAppointments (now : Int) : List Appointment :=
  [sampleAppointment 1 (now - msPerDay), sampleAppointment 2 (now + msPerDay),
   sampleAppointment 3 (now + 3 * msPerDay)]

/-- A browser with the given storage and nothing logged. -/
def freshBrowser (ls : Storage) : Browser :=
  { localStorage := ls, href := "/", hrefAssignments := [], routerNavigations := [],
    network := [] }

/-- A request configuration used in examples. -/
def sampleConfig : RequestConfig :=
  mkConfig none "get" "/tasks" none

/-- An error carrying a response with the given status. -/
def statusError (status : Nat) : AxiosError :=
  { message := "Request failed", response := some { status := status, data := none } }

/-- A server that answers every request with the given login data. -/
def okServer (d : AuthData) : RequestConfig → Settled (Response AuthData) :=
  fun _ => Settled.fulfilled { status := 200, data := d }

/-- Verb, path and body of a request. -/
def RequestConfig.summary (c : RequestConfig) : String × String × Option Body :=
  (c.method, c.url, c.data)

/-- A server that fails every request with the given error. -/
def failServer {α : Type} (err : AxiosError) : RequestConfig → Settled (Response α) :=
  fun _ => Settled.rejected err

/-- An error whose response has status 500 and the given `error` field. -/
def serverError (error : Option String) : AxiosError :=
  { message := "Request failed with status code 500",
    response := some { status := 500, data := some { error := error } } }

/-- An error without a response (network failure). -/
def networkError : AxiosError :=
  { message := "Network Error", response := none }

/-- A blank `Tasks` page. -/
def sampleTasksState : TasksState :=
  { tasks := [], loading := true, error := "", showModal := false, editingTask := none,
    formData := Tasks.blankForm, saving := false }

/-- A blank `Appointments` page. -/
def sampleAppointmentsState : AppointmentsState :=
  { appointments := [], loading := true, error := "", showModal := false,
    editingAppointment := none, formData := { subject := "", date := "" }, saving := false }

/-! ## Dictionary lemmas -/

/-- A removed key is no longer bound. -/
theorem lookupKey_removeKey_self (d : Dict) (key : String) :
    lookupKey (removeKey d key) key = none := by
  induction d with
  | nil => rfl
  | cons kv rest ih =>
    obtain ⟨k, v⟩ := kv
    by_cases h : k = key
    · simp [removeKey, h, ih]
    · simp [removeKey, lookupKey, h, ih]

/-- Removing a key leaves the other keys as they were. -/
theorem lookupKey_removeKey_ne (d : Dict) (key other : String) (h : other ≠ key) :
    lookupKey (removeKey d key) other = lookupKey d other := by
  induction d with
  | nil => rfl
  | cons kv rest ih =>
    obtain ⟨k, v⟩ := kv
    by_cases hk : k = key
    · subst hk
      have : ¬ k = other := fun e => h e.symm
      simp [removeKey, lookupKey, this, ih]
    · by_cases ho : k = other
      · subst ho
        simp [removeKey, lookupKey, h]
      · simp [removeKey, lookupKey, hk, ho, ih]

/-- A written key is bound to the written value. -/
theorem lookupKey_insertKey_self (d : Dict) (key value : String) :
    lookupKey (insertKey d key value) key = some value := by
  simp [insertKey, lookupKey]

/-- Writing a key leaves the other keys as they were. -/
theorem lookupKey_insertKey_ne (d : Dict) (key value other : String) (h : other ≠ key) :
    lookupKey (insertKey d key value) other = lookupKey d other := by
  have : ¬ key = other := fun e => h e.symm
  simp [insertKey, lookupKey, this, lookupKey_removeKey_ne d key other h]

/-! ## The request interceptor -/

/-- With a non-empty token stored, the interceptor writes the `Authorization` header. -/
theorem requestInterceptor_of_token (ls : Storage) (c : RequestConfig) (t : String)
    (ht : getItem ls "token" = some t) (hne : t ≠ "") :
    requestInterceptor ls c
      = { c with headers := insertKey c.headers "Authorization" ("Bearer " ++ t) } := by
  have hb : (t != "") = true := by simpa using hne
  simp only [requestInterceptor, ht, hb, if_true]

/-- Without a stored token the interceptor returns the configuration it was given. -/
theorem requestInterceptor_of_no_token (ls : Storage) (c : RequestConfig)
    (hnone : getItem ls "token" = none) : requestInterceptor ls c = c := by
  simp only [requestInterceptor, hnone]

/-- C1. Request interceptor: when storage holds a non-empty token `t`, the returned
configuration has header `Authorization` equal to `"Bearer "` followed by `t`, and every
other header and every other field is that of the given configuration; when storage holds
no token the configuration is returned unchanged. -/
theorem requestInterceptor_bearer (ls : Storage) (c : RequestConfig) :
    (∀ t : String, getItem ls "token" = some t → t ≠ "" →
      getHeader (requestInterceptor ls c).headers "Authorization" = some ("Bearer " ++ t) ∧
      (∀ name : String, name ≠ "Authorization" →
        getHeader (requestInterceptor ls c).headers name = getHeader c.headers name) ∧
      (requestInterceptor ls c).method = c.method ∧
      (requestInterceptor ls c).url = c.url ∧
      (requestInterceptor ls c).baseURL = c.baseURL ∧
      (requestInterceptor ls c).data = c.data) ∧
    (getItem ls "token" = none → requestInterceptor ls c = c) := by
  constructor
  · intro t ht hne
    rw [requestInterceptor_of_token ls c t ht hne]
    refine ⟨lookupKey_insertKey_self _ _ _, ?_, rfl, rfl, rfl, rfl⟩
    intro name hname
    exact lookupKey_insertKey_ne _ _ _ _ hname
  · exact requestInterceptor_of_no_token ls c

/-- C1 at a concrete input: token `abc` stored, and empty storage. -/
theorem requestInterceptor_bearer_witness :
    getHeader (requestInterceptor [("token", "abc")] sampleConfig).headers "Authorization"
        = some ("Bearer " ++ "abc") ∧
      getHeader (requestInterceptor [("token", "abc")] sampleConfig).headers "Content-Type"
        = getHeader sampleConfig.headers "Content-Type" ∧
      requestInterceptor [] sampleConfig = sampleConfig :=
  ⟨((requestInterceptor_bearer [("token", "abc")] sampleConfig).1 "abc" (by decide)
      (by decide)).1,
   ((requestInterceptor_bearer [("token", "abc")] sampleConfig).1 "abc" (by decide)
      (by decide)).2.1 "Content-Type" (by decide),
   (requestInterceptor_bearer [] sampleConfig).2 (by decide)⟩

/-! ## The response interceptor -/

/-- C2. Response error handler: for an error whose response status is 401, in every
browser state, afterwards storage holds neither `token` nor `email` (the key under which
login stores the identity), every other key is untouched, `window.location.href` is
`/login`, and exactly one assignment to it was added. -/
theorem responseRejected_unauthorized (α : Type) (error : AxiosError) (r : ErrorResponse)
    (b : Browser) (hr : error.response = some r) (hs : r.status = 401) :
    getItem (responseRejected error b : Browser × Settled α).1.localStorage "token" = none ∧
    getItem (responseRejected error b : Browser × Settled α).1.localStorage "email" = none ∧
    (∀ key : String, key ≠ "token" → key ≠ "email" →
      getItem (responseRejected error b : Browser × Settled α).1.localStorage key
        = getItem b.localStorage key) ∧
    (responseRejected error b : Browser × Settled α).1.href = "/login" ∧
    (responseRejected error b : Browser × Settled α).1.hrefAssignments
      = b.hrefAssignments ++ ["/login"] := by
  have h401 : error.response.map (fun r => r.status) = some 401 := by simp [hr, hs]
  simp only [responseRejected, h401, if_true, assignHref, getItem, removeItem]
  refine ⟨?_, lookupKey_removeKey_self _ _, ?_, trivial, trivial⟩
  · rw [lookupKey_removeKey_ne _ _ _ (by decide)]
    exact lookupKey_removeKey_self _ _
  · intro key h1 h2
    rw [lookupKey_removeKey_ne _ _ _ h2, lookupKey_removeKey_ne _ _ _ h1]

/-- C2 at a concrete input: a 401 received with a session in storage. -/
theorem responseRejected_unauthorized_witness :
    getItem (responseRejected (statusError 401)
        (freshBrowser [("token", "abc"), ("email", "ann@example.com")]) :
        Browser × Settled Unit).1.localStorage "token" = none ∧
    (responseRejected (statusError 401)
        (freshBrowser [("token", "abc"), ("email", "ann@example.com")]) :
        Browser × Settled Unit).1.hrefAssignments = [] ++ ["/login"] :=
  ⟨(responseRejected_unauthorized Unit (statusError 401) ⟨401, none⟩
      (freshBrowser [("token", "abc"), ("email", "ann@example.com")]) rfl rfl).1,
   (responseRejected_unauthorized Unit (statusError 401) ⟨401, none⟩
      (freshBrowser [("token", "abc"), ("email", "ann@example.com")]) rfl rfl).2.2.2.2⟩

/-- C3. Response interceptor propagation: the success handler returns the response it is
given, the error handler always returns a promise rejected with the error it is given
(whatever the status, and also without a response), so it never resolves, and a request
settled through the interceptor has the outcome the transport gave. -/
theorem response_propagation (α : Type) (response : α) (error : AxiosError) (b : Browser)
    (outcome : Settled (Response α)) :
    responseFulfilled response = response ∧
    (responseRejected error b : Browser × Settled α).2 = Settled.rejected error ∧
    (∀ v : α, (responseRejected error b : Browser × Settled α).2 ≠ Settled.fulfilled v) ∧
    (api.settle outcome b).2 = outcome := by
  refine ⟨rfl, rfl, ?_, ?_⟩
  · intro v h
    simp [responseRejected] at h
  · cases outcome with
    | fulfilled value => rfl
    | rejected reason => rfl

/-! ## Which requests carry the token -/

/-- C4, refuted as stated: with token `abc` stored, the request built by `authAPI.login`
leaves the request interceptor with `Authorization: Bearer abc` (so it is not without an
`Authorization` header), and with an empty token stored the request built by
`tasksAPI.getAll` leaves it without an `Authorization` header. -/
theorem login_request_carries_token :
    getHeader (requestInterceptor [("token", "abc")]
        (authAPI.login none "ann@example.com" "secret")).headers "Authorization"
      = some "Bearer abc" ∧
    ¬ (getHeader (requestInterceptor [("token", "abc")]
        (authAPI.login none "ann@example.com" "secret")).headers "Authorization" = none) ∧
    getHeader (requestInterceptor [("token", "")] (tasksAPI.getAll none)).headers
        "Authorization" = none := by
  decide

/-- C4, amended: when storage holds a non-empty token `t`, the request built by every
operation of the access layer, `authAPI.register` and `authAPI.login` included, carries
`Authorization: Bearer t` after the request interceptor has run. -/
theorem every_request_carries_token (env : Option String) (ls : Storage) (t : String)
    (call : ApiCall) (ht : getItem ls "token" = some t) (hne : t ≠ "") :
    getHeader (requestInterceptor ls (call.config env)).headers "Authorization"
      = some ("Bearer " ++ t) := by
  rw [requestInterceptor_of_token ls (call.config env) t ht hne]
  exact lookupKey_insertKey_self _ _ _

/-- C4, amended, at a concrete input: the registration request with token `abc` stored. -/
theorem every_request_carries_token_witness :
    getHeader (requestInterceptor [("token", "abc")]
        ((ApiCall.authRegister "ann@example.com" "secret").config none)).headers
        "Authorization" = some ("Bearer " ++ "abc") :=
  every_request_carries_token none [("token", "abc")] "abc"
    (ApiCall.authRegister "ann@example.com" "secret") (by decide) (by decide)

/-! ## Session storage -/

/-- Storage after a successful login: both keys written by `Login.handleSubmit`. -/
theorem login_success_storage (env : Option String) (d : AuthData) (st : LoginState)
    (b : Browser) :
    (Login.handleSubmit env (okServer d) st b).2.localStorage
      = setItem (setItem b.localStorage "token" d.token) "email" d.email := by
  simp [Login.handleSubmit, api.send, api.dispatch, api.settle, okServer, responseFulfilled,
    navigate]

/-- C5, evaluated on the code: after a successful login answered with `d`, sign-out by
`Sidebar.handleLogout` removes the token but the email stored at login is still in
storage under `email`. -/
theorem logout_keeps_email (env : Option String) (d : AuthData) (st : LoginState)
    (b : Browser) :
    getItem (Sidebar.handleLogout (Login.handleSubmit env (okServer d) st b).2).localStorage
        "token" = none ∧
    getItem (Sidebar.handleLogout (Login.handleSubmit env (okServer d) st b).2).localStorage
        "email" = some d.email := by
  simp only [Sidebar.handleLogout, assignHref, login_success_storage, getItem, removeItem,
    setItem]
  constructor
  · rw [lookupKey_removeKey_ne _ _ _ (by decide)]
    exact lookupKey_removeKey_self _ _
  · rw [lookupKey_removeKey_ne _ _ _ (by decide), lookupKey_removeKey_ne _ _ _ (by decide)]
    exact lookupKey_insertKey_self _ _ _

/-- C6, evaluated on the code: after a successful login answered with `d`, reading
`token` yields `d.token`, but the identity `Header` reads is what it was before the login;
starting from empty storage it is the placeholder `User`, not the email. -/
theorem header_ignores_login (env : Option String) (d : AuthData) (st : LoginState)
    (b : Browser) :
    getItem (Login.handleSubmit env (okServer d) st b).2.localStorage "token"
      = some d.token ∧
    Header.email (Login.handleSubmit env (okServer d) st b).2.localStorage
      = Header.email b.localStorage ∧
    Header.email (Login.handleSubmit env (okServer d) st (freshBrowser [])).2.localStorage
      = "User" := by
  have key : ∀ b0 : Browser,
      getItem (Login.handleSubmit env (okServer d) st b0).2.localStorage "userEmail"
        = getItem b0.localStorage "userEmail" := by
    intro b0
    rw [login_success_storage]
    simp only [getItem, setItem]
    rw [lookupKey_insertKey_ne _ _ _ _ (by decide), lookupKey_insertKey_ne _ _ _ _ (by decide)]
  refine ⟨?_, ?_, ?_⟩
  · rw [login_success_storage]
    simp only [getItem, setItem]
    rw [lookupKey_insertKey_ne _ _ _ _ (by decide)]
    exact lookupKey_insertKey_self _ _ _
  · simp only [Header.email, key]
  · simp only [Header.email, key]
    rfl

/-- C7. `isAuthenticated` is true exactly when storage holds an entry for `token`
(whatever its value), and `ProtectedRoute` renders the redirect to `/login` exactly when
`isAuthenticated` is false, and otherwise the wrapped page inside `DashboardLayout`. -/
theorem protectedRoute_gate (ls : Storage) (children : Element) :
    (isAuthenticated ls = true ↔ ∃ t : String, getItem ls "token" = some t) ∧
    (ProtectedRoute ls children = Element.navigateTo "/login" true
      ↔ isAuthenticated ls = false) ∧
    (ProtectedRoute ls children = Element.dashboardLayout children
      ↔ isAuthenticated ls = true) := by
  refine ⟨?_, ?_, ?_⟩
  · simp [isAuthenticated, Option.isSome_iff_exists]
  · cases h : isAuthenticated ls <;> simp [ProtectedRoute, h]
  · cases h : isAuthenticated ls <;> simp [ProtectedRoute, h]

/-! ## Dashboard counts -/

/-- C8. Dashboard task counts: `totalTasks` is the length of the task list, `pendingTasks`
the number of tasks whose status is `TODO`, `completedTasks` the number whose status is
`DONE`; two `TODO` and three `DONE` tasks give 5, 2 and 3. -/
theorem dashboard_task_counts (tasks : List Task) (appointments : List Appointment)
    (now : Int) :
    (Dashboard.computeStats tasks appointments now).totalTasks = tasks.length ∧
    (Dashboard.computeStats tasks appointments now).pendingTasks
      = tasks.countP (fun t => decide (t.status = "TODO")) ∧
    (Dashboard.computeStats tasks appointments now).completedTasks
      = tasks.countP (fun t => decide (t.status = "DONE")) ∧
    (Dashboard.computeStats sampleTasks appointments now).totalTasks = 5 ∧
    (Dashboard.computeStats sampleTasks appointments now).pendingTasks = 2 ∧
    (Dashboard.computeStats sampleTasks appointments now).completedTasks = 3 := by
  refine ⟨rfl, ?_, ?_, rfl, ?_, ?_⟩
  · simp only [Dashboard.computeStats, List.countP_eq_length_filter]
    rfl
  · simp only [Dashboard.computeStats, List.countP_eq_length_filter]
    rfl
  · simp only [Dashboard.computeStats]
    decide
  · simp only [Dashboard.computeStats]
    decide

/-- The filter predicate of `upcoming` holds exactly for a valid date after `now`. -/
theorem isAfterNow_iff (now : Int) (a : Appointment) :
    Dashboard.isAfterNow now a = true ↔ ∃ d ∈ a.date, now < d := by
  unfold Dashboard.isAfterNow
  cases h : a.date with
  | none => simp
  | some d => simp

/-- Sorting by date keeps the number of appointments. -/
theorem length_sortByDate (l : List Appointment) :
    (Dashboard.sortByDate l).length = l.length := by
  simp [Dashboard.sortByDate, List.length_insertionSort]

/-- Sorting by date keeps the appointments. -/
theorem mem_sortByDate (a : Appointment) (l : List Appointment) :
    a ∈ Dashboard.sortByDate l ↔ a ∈ l := by
  unfold Dashboard.sortByDate
  exact (List.perm_insertionSort _ l).mem_iff

/-- C10. Upcoming count: `upcomingAppointments` is the number of appointments whose date
is strictly after `now`; an appointment dated `now` or earlier is not among the upcoming
ones; for dates yesterday, tomorrow and in three days the count is 2. -/
theorem upcoming_count (tasks : List Task) (appointments : List Appointment) (now : Int) :
    (Dashboard.computeStats tasks appointments now).upcomingAppointments
      = appointments.countP (fun a => decide (∃ d ∈ a.date, now < d)) ∧
    (∀ (a : Appointment) (d : Int), a.date = some d → d ≤ now →
      a ∉ Dashboard.upcoming appointments now) ∧
    (Dashboard.computeStats tasks (sampleAppointments now) now).upcomingAppointments = 2 := by
  refine ⟨?_, ?_, ?_⟩
  · simp only [Dashboard.computeStats, Dashboard.upcoming, length_sortByDate,
      List.countP_eq_length_filter]
    congr 1
    apply List.filter_congr
    intro a _
    by_cases h : ∃ d ∈ a.date, now < d
    · simp only [h, decide_True]
      exact (isAfterNow_iff now a).2 h
    · simp only [h, decide_False]
      cases hb : Dashboard.isAfterNow now a with
      | false => rfl
      | true => exact absurd ((isAfterNow_iff now a).1 hb) h
  · intro a d hd hle hmem
    rw [Dashboard.upcoming, mem_sortByDate, List.mem_filter] at hmem
    obtain ⟨d1, hd1, hlt⟩ := (isAfterNow_iff now a).1 hmem.2
    rw [hd] at hd1
    have : d = d1 := by simpa using hd1
    omega
  · have h1 : ¬ (now < now - 86400000) := by omega
    have h2 : now < now + 86400000 := by omega
    have h3 : now < now + 3 * 86400000 := by omega
    simp [Dashboard.computeStats, Dashboard.upcoming, length_sortByDate, sampleAppointments,
      sampleAppointment, Dashboard.isAfterNow, msPerDay, List.filter, h1, h2, h3]

/-- C10 at a concrete input: an appointment dated before `now` is not upcoming. -/
theorem upcoming_count_witness :
    sampleAppointment 1 (-5) ∉ Dashboard.upcoming [sampleAppointment 1 (-5)] 0 :=
  (upcoming_count [] [sampleAppointment 1 (-5)] 0).2.1 (sampleAppointment 1 (-5)) (-5) rfl
    (by decide)

/-! ## Completion rate -/

/-- Rounding to an integer moves a number by at most one half. -/
theorem roundHalfEven_error (q : ℚ) : |(roundHalfEven q : ℚ) - q| ≤ 1 / 2 := by
  have h1 : (⌊q⌋ : ℚ) ≤ q := Int.floor_le q
  have h2 : q < ⌊q⌋ + 1 := Int.lt_floor_add_one q
  unfold roundHalfEven
  rw [abs_le]
  split_ifs with a b c
  · constructor <;> linarith
  · push_cast
    constructor <;> linarith
  · constructor <;> linarith
  · push_cast
    constructor <;> linarith

/-- Rounding a number in the normal range to binary64 has relative error at most
`2 ^ (-53)`. -/
theorem toDouble_error (q : ℚ) (hq : (2 : ℚ) ^ (-1022 : ℤ) ≤ q) :
    |toDouble q - q| ≤ q * 2 ^ (-53 : ℤ) := by
  have hpos : (0 : ℚ) < q := lt_of_lt_of_le (by positivity) hq
  have habs : |q| = q := abs_of_pos hpos
  have hlog : (-1022 : ℤ) ≤ Int.log 2 q :=
    (Int.zpow_le_iff_le_log (by norm_num) hpos).1 (by exact_mod_cast hq)
  have hle : ((2 : ℕ) : ℚ) ^ Int.log 2 q ≤ q := Int.zpow_log_le_self (by norm_num) hpos
  have hulp : (0 : ℚ) < 2 ^ (Int.log 2 q - 52) := by positivity
  simp only [toDouble, habs, max_eq_left hlog]
  have hr := roundHalfEven_error (q / 2 ^ (Int.log 2 q - 52))
  have : (roundHalfEven (q / 2 ^ (Int.log 2 q - 52)) : ℚ) * 2 ^ (Int.log 2 q - 52) - q
      = ((roundHalfEven (q / 2 ^ (Int.log 2 q - 52)) : ℚ) - q / 2 ^ (Int.log 2 q - 52))
        * 2 ^ (Int.log 2 q - 52) := by
    field_simp
  rw [this, abs_mul, abs_of_pos hulp]
  have hsplit : (2 : ℚ) ^ (Int.log 2 q - 52) = 2 ^ (Int.log 2 q) * 2 ^ (-53 : ℤ) * 2 := by
    rw [zpow_sub₀ (by norm_num : (2 : ℚ) ≠ 0)]
    norm_num [zpow_neg]
    ring
  have hle' : (2 : ℚ) ^ Int.log 2 q ≤ q := by exact_mod_cast hle
  calc |(roundHalfEven (q / 2 ^ (Int.log 2 q - 52)) : ℚ) - q / 2 ^ (Int.log 2 q - 52)|
        * 2 ^ (Int.log 2 q - 52)
      ≤ 1 / 2 * 2 ^ (Int.log 2 q - 52) := by
        apply mul_le_mul_of_nonneg_right hr hulp.le
    _ = 2 ^ (Int.log 2 q) * 2 ^ (-53 : ℤ) := by rw [hsplit]; ring
    _ ≤ q * 2 ^ (-53 : ℤ) := by
        apply mul_le_mul_of_nonneg_right hle' (by positivity)

/-- If `y` is closer to `100 * c / t` than `1 / (2 * t)`, then `Math.round y` is an integer
nearest to `100 * c / t`: no half-integer lies strictly between the two. -/
theorem round_nearest (c t : ℕ) (ht : 0 < t) (y : ℚ)
    (hy : |y - 100 * (c : ℚ) / t| < 1 / (2 * (t : ℚ))) :
    |(Math.round y : ℚ) - 100 * (c : ℚ) / t| ≤ 1 / 2 := by
  unfold Math.round
  have htq : (0 : ℚ) < t := by exact_mod_cast ht
  have hr1 : ((⌊y + 1 / 2⌋ : ℤ) : ℚ) ≤ y + 1 / 2 := Int.floor_le _
  have hr2 : y + 1 / 2 < (⌊y + 1 / 2⌋ : ℤ) + 1 := Int.lt_floor_add_one _
  obtain ⟨hy1, hy2⟩ := abs_lt.1 hy
  -- scale everything by `2 * t`
  have hx : 100 * (c : ℚ) / t * (2 * t) = 200 * c := by field_simp; ring
  have he : 1 / (2 * (t : ℚ)) * (2 * t) = 1 := by field_simp
  have h2t : (0 : ℚ) < 2 * t := by linarith
  have a1 := mul_lt_mul_of_pos_right hy1 h2t
  have a2 := mul_lt_mul_of_pos_right hy2 h2t
  have a3 := mul_le_mul_of_nonneg_right hr1 h2t.le
  have a4 := mul_lt_mul_of_pos_right hr2 h2t
  rw [neg_mul, he, sub_mul, hx] at a1
  rw [he, sub_mul, hx] at a2
  set r : ℤ := ⌊y + 1 / 2⌋ with hr
  have b1 : (t : ℚ) * (2 * r - 1) < 200 * c + 1 := by nlinarith
  have b2 : (200 : ℚ) * c - 1 < t * (2 * r + 1) := by nlinarith
  have c1 : (t : ℤ) * (2 * r - 1) < 200 * c + 1 := by exact_mod_cast b1
  have c2 : (200 : ℤ) * c - 1 < t * (2 * r + 1) := by exact_mod_cast b2
  have d1 : (t : ℤ) * (2 * r - 1) ≤ 200 * c := by omega
  have d2 : (200 : ℤ) * c ≤ t * (2 * r + 1) := by omega
  have e1 : (t : ℚ) * (2 * r - 1) ≤ 200 * c := by exact_mod_cast d1
  have e2 : (200 : ℚ) * c ≤ t * (2 * r + 1) := by exact_mod_cast d2
  have f1 : (r : ℚ) - 1 / 2 ≤ 100 * (c : ℚ) / t := by
    rw [le_div_iff₀ htq]
    nlinarith
  have f2 : 100 * (c : ℚ) / t ≤ (r : ℚ) + 1 / 2 := by
    rw [div_le_iff₀ htq]
    nlinarith
  rw [abs_le]
  constructor <;> linarith

/-- Zero is a binary64 value. -/
theorem toDouble_zero : toDouble 0 = 0 := by
  simp [toDouble, roundHalfEven]

/-- The computed `(c / t) * 100` differs from the exact value by less than `1 / (2 * t)`
when `c ≤ t < 2 ^ 32`. -/
theorem rate_error (c t : ℕ) (hc : c ≤ t) (ht0 : 0 < t) (ht : t < 2 ^ 32) :
    |toDouble (toDouble ((c : ℚ) / t) * 100) - 100 * (c : ℚ) / t| < 1 / (2 * (t : ℚ)) := by
  have htq : (0 : ℚ) < t := by exact_mod_cast ht0
  have htq' : (t : ℚ) < 4294967296 := by exact_mod_cast ht
  have hbound : (0 : ℚ) < 1 / (2 * (t : ℚ)) := by positivity
  rcases Nat.eq_zero_or_pos c with h0 | hpos
  · subst h0
    simp only [Nat.cast_zero, zero_div, mul_zero, toDouble_zero, zero_mul, sub_zero, abs_zero]
    exact hbound
  · have hcq : (1 : ℚ) ≤ c := by exact_mod_cast hpos
    have hct : (c : ℚ) ≤ t := by exact_mod_cast hc
    have hδ : (2 : ℚ) ^ (-53 : ℤ) = 1 / 9007199254740992 := by norm_num [zpow_neg]
    have hsmall : (2 : ℚ) ^ (-1022 : ℤ) ≤ 1 / 8589934592 := by
      have : (2 : ℚ) ^ (-1022 : ℤ) ≤ 2 ^ (-33 : ℤ) :=
        zpow_le_zpow_right₀ (by norm_num) (by norm_num)
      have h33 : (2 : ℚ) ^ (-33 : ℤ) = 1 / 8589934592 := by norm_num [zpow_neg]
      rwa [h33] at this
    -- the quotient lies in `[1 / t, 1]`
    have hq1 : (c : ℚ) / t ≤ 1 := (div_le_one htq).2 hct
    have hq2 : 1 / (t : ℚ) ≤ (c : ℚ) / t := by
      apply div_le_div_of_nonneg_right hcq htq.le
    have hinv : 1 / (4294967296 : ℚ) < 1 / (t : ℚ) :=
      one_div_lt_one_div_of_lt htq htq'
    have hhalf : 1 / (2 * (t : ℚ)) = 1 / (t : ℚ) / 2 := by field_simp; ring
    set q : ℚ := (c : ℚ) / t with hq
    have e1 := toDouble_error q (le_trans hsmall (by linarith))
    rw [hδ, abs_le] at e1
    obtain ⟨e1a, e1b⟩ := e1
    have e2 := toDouble_error (toDouble q * 100) (le_trans hsmall (by linarith))
    rw [hδ, abs_le] at e2
    obtain ⟨e2a, e2b⟩ := e2
    have hx : 100 * (c : ℚ) / t = 100 * q := by rw [hq]; ring
    rw [hx, hhalf, abs_lt]
    constructor <;> linarith

/-- The completion rate of any statistics whose counts are array lengths with
`completedTasks ≤ totalTasks`. -/
theorem completionRate_nearest (s : Stats) (hle : s.completedTasks ≤ s.totalTasks)
    (hlt : s.totalTasks < 2 ^ 32) (hne : s.totalTasks ≠ 0) :
    |(Dashboard.completionRate s : ℚ) - 100 * (s.completedTasks : ℚ) / s.totalTasks|
      ≤ 1 / 2 := by
  have hpos : 0 < s.totalTasks := Nat.pos_of_ne_zero hne
  simp only [Dashboard.completionRate, hne, ne_eq, not_false_eq_true, if_true, Number.mul,
    Number.div]
  exact round_nearest _ _ hpos _ (rate_error _ _ hle hpos hlt)

/-- C9. Completion rate: for every task list (an array, so shorter than `2 ^ 32`) the rate
is 0 when `totalTasks` is 0, otherwise it is an integer nearest to
`100 * completedTasks / totalTasks`; it always lies between 0 and 100, and for 3 completed
of 5 tasks it is 60. -/
theorem completion_rate (tasks : List Task) (appointments : List Appointment) (now : Int)
    (hlen : tasks.length < 2 ^ 32) :
    ((Dashboard.computeStats tasks appointments now).totalTasks = 0 →
      Dashboard.completionRate (Dashboard.computeStats tasks appointments now) = 0) ∧
    ((Dashboard.computeStats tasks appointments now).totalTasks ≠ 0 →
      |(Dashboard.completionRate (Dashboard.computeStats tasks appointments now) : ℚ)
        - 100 * ((Dashboard.computeStats tasks appointments now).completedTasks : ℚ)
          / (Dashboard.computeStats tasks appointments now).totalTasks| ≤ 1 / 2) ∧
    0 ≤ Dashboard.completionRate (Dashboard.computeStats tasks appointments now) ∧
    Dashboard.completionRate (Dashboard.computeStats tasks appointments now) ≤ 100 ∧
    Dashboard.completionRate (Dashboard.computeStats sampleTasks appointments now) = 60 := by
  have hle : ∀ l : List Task, (Dashboard.computeStats l appointments now).completedTasks
      ≤ (Dashboard.computeStats l appointments now).totalTasks := fun l =>
    List.length_filter_le _ l
  have hbounds : 0 ≤ Dashboard.completionRate (Dashboard.computeStats tasks appointments now)
      ∧ Dashboard.completionRate (Dashboard.computeStats tasks appointments now) ≤ 100 := by
    by_cases h0 : (Dashboard.computeStats tasks appointments now).totalTasks = 0
    · simp [Dashboard.completionRate, h0]
    · have hn := completionRate_nearest _ (hle tasks) hlen h0
      have hpos : (0 : ℚ) < (Dashboard.computeStats tasks appointments now).totalTasks := by
        exact_mod_cast Nat.pos_of_ne_zero h0
      have hc : ((Dashboard.computeStats tasks appointments now).completedTasks : ℚ)
          ≤ (Dashboard.computeStats tasks appointments now).totalTasks := by
        exact_mod_cast hle tasks
      have hx0 : (0 : ℚ) ≤ 100 * ((Dashboard.computeStats tasks appointments now).completedTasks
          : ℚ) / (Dashboard.computeStats tasks appointments now).totalTasks := by positivity
      have hx1 : 100 * ((Dashboard.computeStats tasks appointments now).completedTasks : ℚ)
          / (Dashboard.computeStats tasks appointments now).totalTasks ≤ 100 := by
        rw [div_le_iff₀ hpos]
        linarith
      obtain ⟨l1, l2⟩ := abs_le.1 hn
      have g1 : (-1 : ℚ) < (Dashboard.completionRate
          (Dashboard.computeStats tasks appointments now) : ℚ) := by linarith
      have g2 : ((Dashboard.completionRate
          (Dashboard.computeStats tasks appointments now) : ℤ) : ℚ) < 101 := by linarith
      have g1z : (-1 : ℤ) < Dashboard.completionRate
          (Dashboard.computeStats tasks appointments now) := by exact_mod_cast g1
      have g2z : Dashboard.completionRate
          (Dashboard.computeStats tasks appointments now) < 101 := by exact_mod_cast g2
      omega
  refine ⟨?_, ?_, hbounds.1, hbounds.2, ?_⟩
  · intro h0
    simp [Dashboard.completionRate, h0]
  · intro h0
    exact completionRate_nearest _ (hle tasks) hlen h0
  · have hs : (Dashboard.computeStats sampleTasks appointments now).totalTasks = 5 := rfl
    have hd : (Dashboard.computeStats sampleTasks appointments now).completedTasks = 3 := by
      simp only [Dashboard.computeStats]
      decide
    have hn := completionRate_nearest (Dashboard.computeStats sampleTasks appointments now)
      (hle sampleTasks) (by rw [hs]; norm_num) (by rw [hs]; norm_num)
    rw [hs, hd] at hn
    obtain ⟨l1, l2⟩ := abs_le.1 hn
    have g1 : (59 : ℚ) < (Dashboard.completionRate
        (Dashboard.computeStats sampleTasks appointments now) : ℚ) := by
      norm_num at l1 ⊢
      linarith
    have g2 : ((Dashboard.completionRate
        (Dashboard.computeStats sampleTasks appointments now) : ℤ) : ℚ) < 61 := by
      norm_num at l2 ⊢
      linarith
    have g1z : (59 : ℤ) < Dashboard.completionRate
        (Dashboard.computeStats sampleTasks appointments now) := by exact_mod_cast g1
    have g2z : Dashboard.completionRate
        (Dashboard.computeStats sampleTasks appointments now) < 61 := by exact_mod_cast g2
    omega

/-- C9 at a concrete input: two `TODO` and three `DONE` tasks give 60. -/
theorem completion_rate_witness :
    Dashboard.completionRate (Dashboard.computeStats sampleTasks [] 0) = 60 :=
  (completion_rate sampleTasks [] 0 (by decide)).2.2.2.2

/-! ## Next appointment -/

/-- On valid dates the comparator orders by time value. -/
theorem notAfter_iff (a b : Appointment) (x y : Int) (ha : a.date = some x)
    (hb : b.date = some y) : Dashboard.notAfter a b = true ↔ x ≤ y := by
  simp only [Dashboard.notAfter, Dashboard.compareDates, ha, hb, decide_eq_true_eq]
  omega

/-- The first element of a date-sorted list of valid appointments is dated no later
than any element of the list. -/
theorem head_sortByDate_le (l : List Appointment)
    (hvalid : ∀ a ∈ l, ∃ d, a.date = some d) (h : Appointment)
    (hh : (Dashboard.sortByDate l).head? = some h) (a : Appointment) (ha : a ∈ l)
    (dh da : Int) (hdh : h.date = some dh) (hda : a.date = some da) : dh ≤ da := by
  induction l generalizing h a dh da with
  | nil => simp at ha
  | cons b rest ih =>
    have hvrest : ∀ a ∈ rest, ∃ d, a.date = some d := fun a ha =>
      hvalid a (List.mem_cons_of_mem _ ha)
    obtain ⟨db, hdb⟩ := hvalid b (List.mem_cons_self _ _)
    have hsort : Dashboard.sortByDate (b :: rest)
        = List.orderedInsert (fun a b => Dashboard.notAfter a b = true) b
            (Dashboard.sortByDate rest) := rfl
    rw [hsort] at hh
    cases hs : Dashboard.sortByDate rest with
    | nil =>
      have hrest : rest = [] := by
        have := length_sortByDate rest
        rw [hs] at this
        exact List.length_eq_zero.1 this.symm
      rw [hs] at hh
      simp only [List.orderedInsert, List.head?_cons, Option.some.injEq] at hh
      subst hrest
      simp only [List.mem_singleton] at ha
      subst ha
      subst hh
      rw [hdh] at hda
      have : dh = da := by simpa using hda
      omega
    | cons c cs =>
      rw [hs] at hh
      have hcmem : c ∈ rest := (mem_sortByDate c rest).1 (by rw [hs]; exact List.mem_cons_self _ _)
      obtain ⟨dc, hdc⟩ := hvrest c hcmem
      have ihc : ∀ a ∈ rest, ∀ da, a.date = some da → dc ≤ da := fun a ha da hda =>
        ih hvrest c (by rw [hs]; rfl) a ha dc da hdc hda
      by_cases hbc : Dashboard.notAfter b c = true
      · simp only [List.orderedInsert, hbc, if_true, List.head?_cons, Option.some.injEq] at hh
        subst hh
        have hle : db ≤ dc := (notAfter_iff b c db dc hdb hdc).1 hbc
        rw [hdb] at hdh
        have e1 : db = dh := by simpa using hdh
        rcases List.mem_cons.1 ha with rfl | hmem
        · rw [hdb] at hda
          have : db = da := by simpa using hda
          omega
        · have := ihc a hmem da hda
          omega
      · have hlt : ¬ db ≤ dc := fun hle => hbc ((notAfter_iff b c db dc hdb hdc).2 hle)
        simp only [List.orderedInsert, hbc, Bool.false_eq_true, if_false, List.head?_cons,
          Option.some.injEq] at hh
        subst hh
        rw [hdc] at hdh
        have e1 : dc = dh := by simpa using hdh
        rcases List.mem_cons.1 ha with rfl | hmem
        · rw [hdb] at hda
          have : db = da := by simpa using hda
          omega
        · have := ihc a hmem da hda
          omega

/-- The `nextAppointment` statistic is the first upcoming appointment, if any. -/
theorem nextAppointment_eq_head (tasks : List Task) (appointments : List Appointment)
    (now : Int) :
    (Dashboard.computeStats tasks appointments now).nextAppointment
      = (Dashboard.upcoming appointments now).head? := by
  simp only [Dashboard.computeStats]
  split_ifs with h
  · rfl
  · have : Dashboard.upcoming appointments now = [] := by
      apply List.length_eq_zero.1
      omega
    rw [this]
    rfl

/-- What `nextAppointment` is when it is not null. -/
theorem nextAppointment_some (tasks : List Task) (appointments : List Appointment)
    (now : Int) (n : Appointment)
    (hn : (Dashboard.computeStats tasks appointments now).nextAppointment = some n) :
    n ∈ appointments ∧ ∃ dn, n.date = some dn ∧ now < dn ∧
      ∀ a ∈ appointments, ∀ d, a.date = some d → now < d → dn ≤ d := by
  rw [nextAppointment_eq_head] at hn
  have hvalid : ∀ a ∈ appointments.filter (Dashboard.isAfterNow now),
      ∃ d, a.date = some d := by
    intro a ha
    obtain ⟨d, hd, _⟩ := (isAfterNow_iff now a).1 (List.mem_filter.1 ha).2
    exact ⟨d, hd⟩
  have hmem : n ∈ appointments.filter (Dashboard.isAfterNow now) :=
    (mem_sortByDate n _).1 (List.mem_of_mem_head? hn)
  obtain ⟨hin, hafter⟩ := List.mem_filter.1 hmem
  obtain ⟨dn, hdn, hlt⟩ := (isAfterNow_iff now n).1 hafter
  refine ⟨hin, dn, hdn, hlt, ?_⟩
  intro a ha d hd hnow
  have hamem : a ∈ appointments.filter (Dashboard.isAfterNow now) :=
    List.mem_filter.2 ⟨ha, (isAfterNow_iff now a).2 ⟨d, hd, hnow⟩⟩
  exact head_sortByDate_le _ hvalid n hn a hamem dn d hdn hd

/-- When `nextAppointment` is null. -/
theorem nextAppointment_none_iff (tasks : List Task) (appointments : List Appointment)
    (now : Int) :
    (Dashboard.computeStats tasks appointments now).nextAppointment = none
      ↔ ∀ a ∈ appointments, ¬ ∃ d ∈ a.date, now < d := by
  rw [nextAppointment_eq_head, List.head?_eq_none_iff]
  constructor
  · intro h a ha hex
    have : a ∈ Dashboard.upcoming appointments now :=
      (mem_sortByDate a _).2 (List.mem_filter.2 ⟨ha, (isAfterNow_iff now a).2 hex⟩)
    rw [h] at this
    simp at this
  · intro h
    apply List.eq_nil_iff_forall_not_mem.2
    intro a ha
    obtain ⟨hin, hafter⟩ := List.mem_filter.1 ((mem_sortByDate a _).1 ha)
    exact h a hin ((isAfterNow_iff now a).1 hafter)

/-- C11. Next appointment: `nextAppointment` is null exactly when no appointment is dated
strictly after `now`; otherwise it is an element of the input list, dated strictly after
`now`, whose date is at most the date of every appointment dated after `now`; its date is
the same for every reordering of the input; for dates yesterday, tomorrow and in three
days it is the entry dated tomorrow. -/
theorem next_appointment (tasks : List Task) (appointments : List Appointment) (now : Int) :
    ((Dashboard.computeStats tasks appointments now).nextAppointment = none
      ↔ ∀ a ∈ appointments, ¬ ∃ d ∈ a.date, now < d) ∧
    (∀ n : Appointment,
      (Dashboard.computeStats tasks appointments now).nextAppointment = some n →
      n ∈ appointments ∧ ∃ dn, n.date = some dn ∧ now < dn ∧
        ∀ a ∈ appointments, ∀ d, a.date = some d → now < d → dn ≤ d) ∧
    (∀ reordered : List Appointment, reordered.Perm appointments →
      (Dashboard.computeStats tasks reordered now).nextAppointment.bind (fun n => n.date)
        = (Dashboard.computeStats tasks appointments now).nextAppointment.bind
            (fun n => n.date)) ∧
    (Dashboard.computeStats tasks (sampleAppointments now) now).nextAppointment
      = some (sampleAppointment 2 (now + msPerDay)) := by
  refine ⟨nextAppointment_none_iff tasks appointments now,
    fun n hn => nextAppointment_some tasks appointments now n hn, ?_, ?_⟩
  · intro reordered hperm
    cases h1 : (Dashboard.computeStats tasks reordered now).nextAppointment with
    | none =>
      have hnone := (nextAppointment_none_iff tasks reordered now).1 h1
      have h2 : (Dashboard.computeStats tasks appointments now).nextAppointment = none :=
        (nextAppointment_none_iff tasks appointments now).2
          (fun a ha => hnone a (hperm.mem_iff.2 ha))
      rw [h2]
    | some n1 =>
      obtain ⟨hin1, d1, hd1, hlt1, hmin1⟩ := nextAppointment_some tasks reordered now n1 h1
      cases h2 : (Dashboard.computeStats tasks appointments now).nextAppointment with
      | none =>
        have hnone := (nextAppointment_none_iff tasks appointments now).1 h2
        exact absurd ⟨d1, hd1, hlt1⟩ (hnone n1 (hperm.mem_iff.1 hin1))
      | some n2 =>
        obtain ⟨hin2, d2, hd2, hlt2, hmin2⟩ :=
          nextAppointment_some tasks appointments now n2 h2
        have l1 : d1 ≤ d2 := hmin1 n2 (hperm.mem_iff.2 hin2) d2 hd2 hlt2
        have l2 : d2 ≤ d1 := hmin2 n1 (hperm.mem_iff.1 hin1) d1 hd1 hlt1
        simp only [Option.bind, hd1, hd2, Option.some.injEq]
        omega
  · cases h : (Dashboard.computeStats tasks (sampleAppointments now) now).nextAppointment with
    | none =>
      have hnone := (nextAppointment_none_iff tasks (sampleAppointments now) now).1 h
      refine absurd ⟨now + msPerDay, rfl, ?_⟩
        (hnone (sampleAppointment 2 (now + msPerDay)) (by simp [sampleAppointments]))
      simp only [msPerDay]
      omega
    | some n =>
      obtain ⟨hin, dn, hdn, hlt, hmin⟩ :=
        nextAppointment_some tasks (sampleAppointments now) now n h
      have htomorrow := hmin (sampleAppointment 2 (now + msPerDay))
        (by simp [sampleAppointments]) (now + msPerDay) rfl (by simp only [msPerDay]; omega)
      simp only [sampleAppointments, List.mem_cons, List.mem_singleton, List.not_mem_nil,
        or_false] at hin
      simp only [msPerDay] at htomorrow
      rcases hin with rfl | rfl | rfl
      · simp only [sampleAppointment, msPerDay, Option.some.injEq] at hdn
        omega
      · rfl
      · simp only [sampleAppointment, msPerDay, Option.some.injEq] at hdn
        omega

/-- C11 at a concrete input: the appointment dated 5 is next and no later than the one
dated 9. -/
theorem next_appointment_witness :
    sampleAppointment 2 5 ∈ [sampleAppointment 1 9, sampleAppointment 2 5] ∧
      ∃ dn, (sampleAppointment 2 5).date = some dn ∧ (0 : Int) < dn ∧
        ∀ a ∈ [sampleAppointment 1 9, sampleAppointment 2 5], ∀ d, a.date = some d →
          0 < d → dn ≤ d :=
  (next_appointment [] [sampleAppointment 1 9, sampleAppointment 2 5] 0).2.1
    (sampleAppointment 2 5) (by decide)

/-! ## Registration checks -/

/-- C12. Registration with mismatched passwords: submitting sets the error to
`Passwords do not match`, ends with `loading` false, and leaves the browser as it was:
storage is unchanged and no request is sent, whatever the server would answer. -/
theorem register_mismatch (env : Option String)
    (server : RequestConfig → Settled (Response AuthData)) (st : RegisterState) (b : Browser)
    (h : st.password ≠ st.confirmPassword) :
    (Register.handleSubmit env server st b).1.error = "Passwords do not match" ∧
    (Register.handleSubmit env server st b).1.loading = false ∧
    (Register.handleSubmit env server st b).2.localStorage = b.localStorage ∧
    (Register.handleSubmit env server st b).2.network = b.network ∧
    (Register.handleSubmit env server st b).2 = b := by
  simp [Register.handleSubmit, h]

/-- C12 at a concrete input: passwords `secret` and `secrex`. -/
theorem register_mismatch_witness :
    (Register.handleSubmit none (okServer ⟨"abc", "ann@example.com"⟩)
      { sampleRegistration with confirmPassword := "secrex" } (freshBrowser [])).2.network
      = (freshBrowser []).network :=
  (register_mismatch none (okServer ⟨"abc", "ann@example.com"⟩)
    { sampleRegistration with confirmPassword := "secrex" } (freshBrowser [])
    (by decide)).2.2.2.1

/-- The request a whole `api.send` puts on the wire: exactly one, the intercepted
configuration. -/
theorem api_send_network {α : Type} (server : RequestConfig → Settled (Response α))
    (config : RequestConfig) (b : Browser) :
    (api.send server config b).1.network
      = b.network ++ [requestInterceptor b.localStorage config] := by
  simp only [api.send, api.dispatch, api.settle]
  cases server (requestInterceptor b.localStorage config) with
  | fulfilled response => rfl
  | rejected error =>
    simp only [responseRejected]
    split_ifs <;> rfl

/-- The request interceptor keeps verb, path, base URL and body. -/
theorem requestInterceptor_frame (ls : Storage) (c : RequestConfig) :
    (requestInterceptor ls c).method = c.method ∧ (requestInterceptor ls c).url = c.url ∧
    (requestInterceptor ls c).baseURL = c.baseURL ∧ (requestInterceptor ls c).data = c.data := by
  unfold requestInterceptor
  cases getItem ls "token" with
  | none => exact ⟨rfl, rfl, rfl, rfl⟩
  | some t =>
    by_cases ht : (t != "") = true
    · simp only [ht, if_true, and_self]
    · simp only [ht, if_false, and_self, Bool.false_eq_true]

/-- When both local checks pass, `Register.handleSubmit` sends the registration request
and acts on its outcome. -/
theorem register_checks_passed (env : Option String)
    (server : RequestConfig → Settled (Response AuthData)) (st : RegisterState) (b : Browser)
    (hm : st.password = st.confirmPassword) (h4 : ¬ jsLength st.password < 4) :
    Register.handleSubmit env server st b
      = match api.send server (authAPI.register env st.email st.password) b with
        | (b1, Settled.fulfilled response) =>
          let ls1 := setItem b1.localStorage "token" response.data.token
          let ls2 := setItem ls1 "email" response.data.email
          ({ st with error := "", loading := false },
            navigate { b1 with localStorage := ls2 } "/tasks")
        | (b1, Settled.rejected err) =>
          ({ st with error := errorMessage err "Registration failed. Please try again.",
                     loading := false }, b1) := by
  unfold Register.handleSubmit
  rw [if_neg (not_not.2 hm), if_neg h4]

/-- C13. Registration with a short password: when the password has fewer than 4
characters (as `length` counts them, in UTF-16 code units) submitting is rejected with one
of the two local messages, ends with `loading` false and leaves the browser as it was, so
storage is unchanged and no request is sent; a password of exactly 4 characters equal to
its confirmation passes both checks: the registration request is sent, and when the
server accepts it the token is stored and no error is shown. -/
theorem register_short_password (env : Option String)
    (server : RequestConfig → Settled (Response AuthData)) (st : RegisterState)
    (b : Browser) (d : AuthData) :
    (jsLength st.password < 4 →
      ((Register.handleSubmit env server st b).1.error = "Passwords do not match" ∨
        (Register.handleSubmit env server st b).1.error
          = "Password must be at least 4 characters") ∧
      (Register.handleSubmit env server st b).1.loading = false ∧
      (Register.handleSubmit env server st b).2.localStorage = b.localStorage ∧
      (Register.handleSubmit env server st b).2.network = b.network ∧
      (Register.handleSubmit env server st b).2 = b) ∧
    (jsLength st.password = 4 → st.password = st.confirmPassword →
      (Register.handleSubmit env server st b).2.network
        = b.network ++ [requestInterceptor b.localStorage
            (authAPI.register env st.email st.password)] ∧
      (Register.handleSubmit env (okServer d) st b).1.error = "" ∧
      getItem (Register.handleSubmit env (okServer d) st b).2.localStorage "token"
        = some d.token) := by
  constructor
  · intro hshort
    by_cases hm : st.password = st.confirmPassword
    · unfold Register.handleSubmit
      rw [if_neg (not_not.2 hm), if_pos hshort]
      exact ⟨Or.inr rfl, rfl, rfl, rfl, rfl⟩
    · unfold Register.handleSubmit
      rw [if_pos hm]
      exact ⟨Or.inl rfl, rfl, rfl, rfl, rfl⟩
  · intro hlen hm
    have h4 : ¬ jsLength st.password < 4 := by omega
    rw [register_checks_passed env server st b hm h4,
      register_checks_passed env (okServer d) st b hm h4]
    refine ⟨?_, ?_, ?_⟩
    · have hn := api_send_network server (authAPI.register env st.email st.password) b
      rcases hsend : api.send server (authAPI.register env st.email st.password) b with
        ⟨b1, res⟩
      rw [hsend] at hn
      cases res with
      | fulfilled response => simpa [navigate] using hn
      | rejected err => simpa using hn
    · simp [api.send, api.dispatch, api.settle, okServer, responseFulfilled]
    · simp only [api.send, api.dispatch, api.settle, okServer, responseFulfilled, navigate,
        getItem, setItem]
      rw [lookupKey_insertKey_ne _ _ _ _ (by decide)]
      exact lookupKey_insertKey_self _ _ _

/-- C13 at a concrete input: password `abc` is rejected without a request. -/
theorem register_short_password_witness :
    (Register.handleSubmit none (okServer ⟨"abc", "ann@example.com"⟩)
      { sampleRegistration with password := "abc", confirmPassword := "abc" }
      (freshBrowser [])).2 = freshBrowser [] :=
  ((register_short_password none (okServer ⟨"abc", "ann@example.com"⟩)
    { sampleRegistration with password := "abc", confirmPassword := "abc" }
    (freshBrowser []) ⟨"abc", "ann@example.com"⟩).1 (by decide)).2.2.2.2

/-! ## The status toggle -/

/-- Reloading the task list sends exactly one request. -/
theorem fetchTasks_network (env : Option String)
    (listServer : RequestConfig → Settled (Response (List Task)))
    (st : TasksState) (b : Browser) :
    (Tasks.fetchTasks env listServer st b).2.network
      = b.network ++ [requestInterceptor b.localStorage (tasksAPI.getAll env)] := by
  have hn := api_send_network listServer (tasksAPI.getAll env) b
  unfold Tasks.fetchTasks
  rcases hsend : api.send listServer (tasksAPI.getAll env) b with ⟨b1, res⟩
  rw [hsend] at hn
  cases res with
  | fulfilled response => exact hn
  | rejected err => exact hn

/-- The requests `toggleStatus` sends: the update with the given new status, followed
by at most a reload of the list. -/
theorem toggleStatus_network (env : Option String)
    (writeServer : RequestConfig → Settled (Response Unit))
    (listServer : RequestConfig → Settled (Response (List Task)))
    (task : Task) (st : TasksState) (b : Browser) (newStatus : String)
    (hnew : (if task.status = "TODO" then "DONE" else "TODO") = newStatus) :
    ∃ rest : List RequestConfig,
      (Tasks.toggleStatus env writeServer listServer task st b).2.network
        = b.network ++ requestInterceptor b.localStorage
            (tasksAPI.update env task.id (Body.task { task with status := newStatus }))
          :: rest ∧
      ∀ r ∈ rest, r.method = "get" ∧ r.url = "/tasks" := by
  have hn := api_send_network writeServer
    (tasksAPI.update env task.id (Body.task { task with status := newStatus })) b
  unfold Tasks.toggleStatus
  simp only [hnew]
  rcases hsend : api.send writeServer
    (tasksAPI.update env task.id (Body.task { task with status := newStatus })) b with
    ⟨b1, res⟩
  rw [hsend] at hn
  cases res with
  | fulfilled response =>
    refine ⟨[requestInterceptor b1.localStorage (tasksAPI.getAll env)], ?_, ?_⟩
    · simp only [fetchTasks_network]
      simp only at hn
      rw [hn, List.append_assoc]
      rfl
    · intro r hr
      rw [List.mem_singleton] at hr
      subst hr
      exact ⟨(requestInterceptor_frame _ _).1, (requestInterceptor_frame _ _).2.1⟩
  | rejected err =>
    refine ⟨[], ?_, ?_⟩
    · exact hn
    · intro r hr
      simp at hr

/-- C14. Status toggle: for a task with status `TODO`, `toggleStatus` sends exactly one
update request (any further request is the reload `GET /tasks`): a `PUT` to
`/tasks/<id of the task>` whose body is the task with status `DONE` and id, title,
description and extra fields unchanged; for a task with status `DONE` the body has status
`TODO` and the other fields unchanged. -/
theorem toggleStatus_update (env : Option String)
    (writeServer : RequestConfig → Settled (Response Unit))
    (listServer : RequestConfig → Settled (Response (List Task)))
    (task : Task) (st : TasksState) (b : Browser) :
    (∀ newStatus : String,
      (task.status = "TODO" ∧ newStatus = "DONE") ∨ (task.status = "DONE" ∧ newStatus = "TODO") →
      ∃ (update : RequestConfig) (rest : List RequestConfig),
        (Tasks.toggleStatus env writeServer listServer task st b).2.network
          = b.network ++ update :: rest ∧
        (∀ r ∈ rest, r.method = "get" ∧ r.url = "/tasks") ∧
        update.method = "put" ∧
        update.url = "/tasks/" ++ toString task.id ∧
        update.data = some (Body.task
          { id := task.id, title := task.title, description := task.description,
            status := newStatus, extra := task.extra })) := by
  intro newStatus hcase
  have hnew : (if task.status = "TODO" then "DONE" else "TODO") = newStatus := by
    rcases hcase with ⟨h1, h2⟩ | ⟨h1, h2⟩
    · rw [h1, h2]
      rfl
    · rw [h1, h2]
      rfl
  obtain ⟨rest, hnet, hrest⟩ :=
    toggleStatus_network env writeServer listServer task st b newStatus hnew
  refine ⟨_, rest, hnet, hrest, ?_, ?_, ?_⟩
  · rw [(requestInterceptor_frame _ _).1]
    rfl
  · rw [(requestInterceptor_frame _ _).2.1]
    rfl
  · rw [(requestInterceptor_frame _ _).2.2.2]
    rfl

/-- C14 at a concrete input: toggling a `TODO` task while the server rejects every
request sends the update with status `DONE` and nothing else. -/
theorem toggleStatus_update_witness :
    ∃ (update : RequestConfig) (rest : List RequestConfig),
      (Tasks.toggleStatus none (failServer networkError) (failServer networkError)
        (sampleTask 7 "TODO") sampleTasksState (freshBrowser [])).2.network
        = (freshBrowser []).network ++ update :: rest ∧
      (∀ r ∈ rest, r.method = "get" ∧ r.url = "/tasks") ∧
      update.method = "put" ∧
      update.url = "/tasks/" ++ toString (sampleTask 7 "TODO").id ∧
      update.data = some (Body.task
        { id := (sampleTask 7 "TODO").id, title := (sampleTask 7 "TODO").title,
          description := (sampleTask 7 "TODO").description, status := "DONE",
          extra := (sampleTask 7 "TODO").extra }) :=
  toggleStatus_update none (failServer networkError) (failServer networkError)
    (sampleTask 7 "TODO") sampleTasksState (freshBrowser []) "DONE" (Or.inl ⟨rfl, rfl⟩)

/-! ## Error display -/

/-- C15, refuted as stated: when loading the tasks fails with a response whose body
carries `error: "Database down"`, the page shows `Failed to load tasks`, not the server
message; and when a login fails with a response whose `error` field is the empty string,
the page shows the fallback, not that field. -/
theorem load_failure_ignores_server_message :
    (Tasks.fetchTasks none (failServer (serverError (some "Database down"))) sampleTasksState
      (freshBrowser [])).1.error = "Failed to load tasks" ∧
    ¬ ((Tasks.fetchTasks none (failServer (serverError (some "Database down")))
      sampleTasksState (freshBrowser [])).1.error = "Database down") ∧
    (Login.handleSubmit none (failServer (serverError (some ""))) sampleLogin
      (freshBrowser [])).1.error = "Login failed. Please try again." := by
  decide

/-- The message computed by `err.response?.data?.error || fallback`. -/
theorem errorMessage_eq (err : AxiosError) (fallback : String) :
    (∀ e : String, (err.response.bind (fun r => r.data)).bind (fun d => d.error) = some e →
      e ≠ "" → errorMessage err fallback = e) ∧
    ((err.response.bind (fun r => r.data)).bind (fun d => d.error) = none ∨
      (err.response.bind (fun r => r.data)).bind (fun d => d.error) = some "" →
      errorMessage err fallback = fallback) := by
  unfold errorMessage
  constructor
  · intro e he hne
    have hb : (e != "") = true := by simpa using hne
    simp only [he, orElse, hb, if_true]
  · intro h
    rcases h with h | h
    · simp only [h, orElse]
    · simp only [h, orElse]
      rfl

/-- What each handler shows when its request fails with `err`. -/
theorem failure_messages (env : Option String) (err : AxiosError) (b : Browser)
    (tasksState : TasksState) (appointmentsState : AppointmentsState)
    (loginState : LoginState) (registerState : RegisterState)
    (tasksList : RequestConfig → Settled (Response (List Task)))
    (appointmentsList : RequestConfig → Settled (Response (List Appointment)))
    (id : Nat) (task : Task)
    (hm : registerState.password = registerState.confirmPassword)
    (h4 : ¬ jsLength registerState.password < 4) :
    (Tasks.handleSubmit env (failServer err) tasksList tasksState b).1.error
      = errorMessage err "Failed to save task" ∧
    (Appointments.handleSubmit env (failServer err) appointmentsList appointmentsState b).1.error
      = errorMessage err "Failed to save appointment" ∧
    (Login.handleSubmit env (failServer err) loginState b).1.error
      = errorMessage err "Login failed. Please try again." ∧
    (Register.handleSubmit env (failServer err) registerState b).1.error
      = errorMessage err "Registration failed. Please try again." ∧
    (Tasks.fetchTasks env (failServer err) tasksState b).1.error = "Failed to load tasks" ∧
    (Appointments.fetchAppointments env (failServer err) appointmentsState b).1.error
      = "Failed to load appointments" ∧
    (Tasks.handleDelete env true (failServer err) tasksList id tasksState b).1.error
      = "Failed to delete task" ∧
    (Appointments.handleDelete env true (failServer err) appointmentsList id
      appointmentsState b).1.error = "Failed to delete appointment" ∧
    (Tasks.toggleStatus env (failServer err) tasksList task tasksState b).1.error
      = "Failed to update task status" := by
  refine ⟨?_, ?_, ?_, ?_, ?_, ?_, ?_, ?_, ?_⟩
  · simp only [Tasks.handleSubmit, api.send, api.dispatch, api.settle, failServer,
      responseRejected]
  · simp only [Appointments.handleSubmit, api.send, api.dispatch, api.settle, failServer,
      responseRejected]
  · simp only [Login.handleSubmit, api.send, api.dispatch, api.settle, failServer,
      responseRejected]
  · rw [register_checks_passed env _ registerState b hm h4]
    simp only [api.send, api.dispatch, api.settle, failServer, responseRejected]
  · simp only [Tasks.fetchTasks, api.send, api.dispatch, api.settle, failServer,
      responseRejected]
  · simp only [Appointments.fetchAppointments, api.send, api.dispatch, api.settle, failServer,
      responseRejected]
  · simp only [Tasks.handleDelete, api.send, api.dispatch, api.settle, failServer,
      responseRejected, if_true]
  · simp only [Appointments.handleDelete, api.send, api.dispatch, api.settle, failServer,
      responseRejected, if_true]
  · simp only [Tasks.toggleStatus, api.send, api.dispatch, api.settle, failServer,
      responseRejected]

/-- C15, amended: when a save (`handleSubmit` of Tasks or Appointments), a login or a
registration request fails, the message shown is the `error` field of the response body
when that field is present and not empty, and the fallback string of the operation
otherwise (no response, no body, no field, or an empty field); when a load, a delete or a
status toggle fails, the message shown is always the fixed string of the operation. -/
theorem error_display (env : Option String) (err : AxiosError) (b : Browser)
    (tasksState : TasksState) (appointmentsState : AppointmentsState)
    (loginState : LoginState) (registerState : RegisterState)
    (tasksList : RequestConfig → Settled (Response (List Task)))
    (appointmentsList : RequestConfig → Settled (Response (List Appointment)))
    (id : Nat) (task : Task)
    (hm : registerState.password = registerState.confirmPassword)
    (h4 : ¬ jsLength registerState.password < 4) :
    (∀ e : String, (err.response.bind (fun r => r.data)).bind (fun d => d.error) = some e →
      e ≠ "" →
      (Tasks.handleSubmit env (failServer err) tasksList tasksState b).1.error = e ∧
      (Appointments.handleSubmit env (failServer err) appointmentsList
        appointmentsState b).1.error = e ∧
      (Login.handleSubmit env (failServer err) loginState b).1.error = e ∧
      (Register.handleSubmit env (failServer err) registerState b).1.error = e) ∧
    ((err.response.bind (fun r => r.data)).bind (fun d => d.error) = none ∨
      (err.response.bind (fun r => r.data)).bind (fun d => d.error) = some "" →
      (Tasks.handleSubmit env (failServer err) tasksList tasksState b).1.error
        = "Failed to save task" ∧
      (Appointments.handleSubmit env (failServer err) appointmentsList
        appointmentsState b).1.error = "Failed to save appointment" ∧
      (Login.handleSubmit env (failServer err) loginState b).1.error
        = "Login failed. Please try again." ∧
      (Register.handleSubmit env (failServer err) registerState b).1.error
        = "Registration failed. Please try again.") ∧
    (Tasks.fetchTasks env (failServer err) tasksState b).1.error = "Failed to load tasks" ∧
    (Appointments.fetchAppointments env (failServer err) appointmentsState b).1.error
      = "Failed to load appointments" ∧
    (Tasks.handleDelete env true (failServer err) tasksList id tasksState b).1.error
      = "Failed to delete task" ∧
    (Appointments.handleDelete env true (failServer err) appointmentsList id
      appointmentsState b).1.error = "Failed to delete appointment" ∧
    (Tasks.toggleStatus env (failServer err) tasksList task tasksState b).1.error
      = "Failed to update task status" := by
  obtain ⟨m1, m2, m3, m4, m5, m6, m7, m8, m9⟩ :=
    failure_messages env err b tasksState appointmentsState loginState registerState
      tasksList appointmentsList id task hm h4
  refine ⟨?_, ?_, m5, m6, m7, m8, m9⟩
  · intro e he hne
    rw [m1, m2, m3, m4]
    exact ⟨(errorMessage_eq err _).1 e he hne, (errorMessage_eq err _).1 e he hne,
      (errorMessage_eq err _).1 e he hne, (errorMessage_eq err _).1 e he hne⟩
  · intro h
    rw [m1, m2, m3, m4]
    exact ⟨(errorMessage_eq err _).2 h, (errorMessage_eq err _).2 h,
      (errorMessage_eq err _).2 h, (errorMessage_eq err _).2 h⟩

/-- C15, amended, at a concrete input: a failed save shows the server message
`Title is required`. -/
theorem error_display_witness :
    (Tasks.handleSubmit none (failServer (serverError (some "Title is required")))
      (failServer networkError) sampleTasksState (freshBrowser [])).1.error
      = "Title is required" :=
  ((error_display none (serverError (some "Title is required")) (freshBrowser [])
    sampleTasksState sampleAppointmentsState sampleLogin sampleRegistration
    (failServer networkError) (failServer networkError) 1 (sampleTask 1 "TODO")
    (by decide) (by decide)).1 "Title is required" (by decide) (by decide)).1

/-! ## Verbs and paths -/

/-- C16. Each operation of the access layer builds one request with a fixed verb and
path: the tasks operations are `GET /tasks`, `GET /tasks/<id>`, `POST /tasks` with the given
body, `PUT /tasks/<id>` with the given body and `DELETE /tasks/<id>`; the appointments
operations are the same on `/appointments`; register and login `POST` the credentials to
`/auth/register` and `/auth/login`, and logout `POST`s to `/auth/logout` without a body.
Sending a request puts exactly one request on the wire, with the verb, path and body that
were built. -/
theorem api_mapping (env : Option String) (id : Nat) (body : Body) (email password : String) :
    (tasksAPI.getAll env).summary = ("get", "/tasks", none) ∧
    (tasksAPI.getById env id).summary = ("get", "/tasks/" ++ toString id, none) ∧
    (tasksAPI.create env body).summary = ("post", "/tasks", some body) ∧
    (tasksAPI.update env id body).summary = ("put", "/tasks/" ++ toString id, some body) ∧
    (tasksAPI.delete env id).summary = ("delete", "/tasks/" ++ toString id, none) ∧
    (appointmentsAPI.getAll env).summary = ("get", "/appointments", none) ∧
    (appointmentsAPI.getById env id).summary
      = ("get", "/appointments/" ++ toString id, none) ∧
    (appointmentsAPI.create env body).summary = ("post", "/appointments", some body) ∧
    (appointmentsAPI.update env id body).summary
      = ("put", "/appointments/" ++ toString id, some body) ∧
    (appointmentsAPI.delete env id).summary
      = ("delete", "/appointments/" ++ toString id, none) ∧
    (authAPI.register env email password).summary
      = ("post", "/auth/register", some (Body.credentials email password)) ∧
    (authAPI.login env email password).summary
      = ("post", "/auth/login", some (Body.credentials email password)) ∧
    (authAPI.logout env).summary = ("post", "/auth/logout", none) ∧
    (∀ (α : Type) (server : RequestConfig → Settled (Response α)) (config : RequestConfig)
      (b : Browser),
      ∃ sent : RequestConfig, (api.send server config b).1.network = b.network ++ [sent] ∧
        sent.summary = config.summary) := by
  refine ⟨rfl, rfl, rfl, rfl, rfl, rfl, rfl, rfl, rfl, rfl, rfl, rfl, rfl, ?_⟩
  intro α server config b
  refine ⟨requestInterceptor b.localStorage config, api_send_network server config b, ?_⟩
  obtain ⟨h1, h2, _, h4⟩ := requestInterceptor_frame b.localStorage config
  simp only [RequestConfig.summary, h1, h2, h4]

/-- C17. Base URL: the base URL of the client is the value of `REACT_APP_API_URL` when
one is provided, and `http://localhost:8080/api` when the variable is unset or empty. -/
theorem base_url (env : Option String) (method url : String) (data : Option Body) :
    (mkConfig env method url data).baseURL = API_BASE_URL env ∧
    (∀ v : String, v ≠ "" → API_BASE_URL (some v) = v) ∧
    API_BASE_URL none = "http://localhost:8080/api" ∧
    API_BASE_URL (some "") = "http://localhost:8080/api" := by
  refine ⟨rfl, ?_, rfl, rfl⟩
  intro v hv
  have hb : (v != "") = true := by simpa using hv
  simp only [API_BASE_URL, hb, if_true]

/-- C17 at a concrete input: an override is used as given. -/
theorem base_url_witness :
    API_BASE_URL (some "https://api.example.com") = "https://api.example.com" :=
  (base_url none "get" "/tasks" none).2.1 "https://api.example.com" (by decide)

/-! ## The session invariant -/

/-- After any single session event, a stored token comes with a stored email. -/
theorem token_implies_email_step (ev : SessionEvent) (b : Browser) :
    (getItem (ev.apply b).localStorage "token").isSome = true →
      (getItem (ev.apply b).localStorage "email").isSome = true := by
  cases ev with
  | login d =>
    intro _
    simp only [SessionEvent.apply, Login.handleSubmit, api.send, api.dispatch, api.settle,
      responseFulfilled, navigate, getItem, setItem]
    rw [lookupKey_insertKey_self]
    rfl
  | register d =>
    intro _
    rw [SessionEvent.apply, register_checks_passed none _ sampleRegistration b rfl (by decide)]
    simp only [api.send, api.dispatch, api.settle, responseFulfilled, navigate, getItem,
      setItem]
    rw [lookupKey_insertKey_self]
    rfl
  | signOut =>
    intro h
    simp only [SessionEvent.apply, Sidebar.handleLogout, assignHref, getItem, removeItem] at h
    rw [lookupKey_removeKey_ne _ _ _ (by decide), lookupKey_removeKey_self] at h
    simp at h
  | unauthorized =>
    intro h
    simp only [SessionEvent.apply, responseRejected, Option.map_some', if_true, assignHref,
      getItem, removeItem] at h
    rw [lookupKey_removeKey_ne _ _ _ (by decide), lookupKey_removeKey_self] at h
    simp at h

/-- C18, evaluated on the code: from empty storage, a successful login followed by
sign-out leaves no token but leaves the email stored at login, so the two are not cleared
together; the direction that does hold in every reachable state is that a stored token
comes with a stored email. -/
theorem session_invariant_broken :
    getItem (runSession [SessionEvent.login ⟨"abc", "ann@example.com"⟩, SessionEvent.signOut]
      (freshBrowser [])).localStorage "token" = none ∧
    getItem (runSession [SessionEvent.login ⟨"abc", "ann@example.com"⟩, SessionEvent.signOut]
      (freshBrowser [])).localStorage "email" = some "ann@example.com" ∧
    (∀ events : List SessionEvent,
      (getItem (runSession events (freshBrowser [])).localStorage "token").isSome = true →
      (getItem (runSession events (freshBrowser [])).localStorage "email").isSome = true) := by
  refine ⟨by decide, by decide, ?_⟩
  intro events
  induction events using List.reverseRecOn with
  | nil =>
    intro h
    simp [runSession, freshBrowser, getItem, lookupKey] at h
  | append_singleton evs ev _ =>
    have hrun : runSession (evs ++ [ev]) (freshBrowser [])
        = ev.apply (runSession evs (freshBrowser [])) := by
      simp [runSession, List.foldl_append]
    rw [hrun]
    exact token_implies_email_step ev _

/-! ## Errors other than 401 -/

/-- C19. Only a 401 touches the session: for an error whose response has a status other
than 401, and for an error without a response, the response error handler leaves the
browser as it was, so storage (token and email) and the location are unchanged. -/
theorem responseRejected_other (α : Type) (error : AxiosError) (b : Browser) :
    (∀ r : ErrorResponse, error.response = some r → r.status ≠ 401 →
      (responseRejected error b : Browser × Settled α).1 = b ∧
      (responseRejected error b : Browser × Settled α).1.localStorage = b.localStorage ∧
      (responseRejected error b : Browser × Settled α).1.href = b.href ∧
      (responseRejected error b : Browser × Settled α).1.hrefAssignments
        = b.hrefAssignments) ∧
    (error.response = none →
      (responseRejected error b : Browser × Settled α).1 = b ∧
      (responseRejected error b : Browser × Settled α).1.localStorage = b.localStorage ∧
      (responseRejected error b : Browser × Settled α).1.href = b.href ∧
      (responseRejected error b : Browser × Settled α).1.hrefAssignments
        = b.hrefAssignments) := by
  constructor
  · intro r hr hs
    have hne : ¬ (error.response.map (fun r => r.status) = some 401) := by
      simp [hr, hs]
    simp only [responseRejected, hne, if_false, and_self]
  · intro hnone
    have hne : ¬ (error.response.map (fun r => r.status) = some 401) := by
      simp [hnone]
    simp only [responseRejected, hne, if_false, and_self]

/-- C19 at concrete inputs: a 500 and a network failure leave a session in place. -/
theorem responseRejected_other_witness :
    (responseRejected (statusError 500) (freshBrowser [("token", "abc")]) :
      Browser × Settled Unit).1 = freshBrowser [("token", "abc")] ∧
    (responseRejected networkError (freshBrowser [("token", "abc")]) :
      Browser × Settled Unit).1 = freshBrowser [("token", "abc")] :=
  ⟨((responseRejected_other Unit (statusError 500) (freshBrowser [("token", "abc")])).1
      ⟨500, none⟩ rfl (by decide)).1,
   ((responseRejected_other Unit networkError (freshBrowser [("token", "abc")])).2 rfl).1⟩

/-! ## The two tests for a stored token -/

/-- C20, refuted as stated: with the empty string stored under `token`,
`isAuthenticated` is true but the request interceptor attaches no `Authorization`
header. -/
theorem empty_token_authenticated_without_header :
    isAuthenticated [("token", "")] = true ∧
    getHeader (requestInterceptor [("token", "")] sampleConfig).headers "Authorization"
      = none := by
  decide

/-- C20, amended: in every storage state in which `isAuthenticated` is true and the
stored token is not the empty string, the request interceptor attaches the header
`Authorization: Bearer <token>` to an outgoing request. -/
theorem authenticated_nonempty_token_attached (ls : Storage) (config : RequestConfig)
    (hauth : isAuthenticated ls = true) (hne : getItem ls "token" ≠ some "") :
    ∃ t : String, getItem ls "token" = some t ∧
      getHeader (requestInterceptor ls config).headers "Authorization"
        = some ("Bearer " ++ t) := by
  unfold isAuthenticated at hauth
  obtain ⟨t, ht⟩ := Option.isSome_iff_exists.1 hauth
  have htne : t ≠ "" := by
    intro h
    rw [h] at ht
    exact hne ht
  refine ⟨t, ht, ?_⟩
  rw [requestInterceptor_of_token ls config t ht htne]
  exact lookupKey_insertKey_self _ _ _

/-- C20, amended, at a concrete input: token `abc`. -/
theorem authenticated_nonempty_token_attached_witness :
    ∃ t : String, getItem [("token", "abc")] "token" = some t ∧
      getHeader (requestInterceptor [("token", "abc")] sampleConfig).headers "Authorization"
        = some ("Bearer " ++ t) :=
  authenticated_nonempty_token_attached [("token", "abc")] sampleConfig (by decide)
    (by decide)

/-! ## The toggle as a function on tasks -/

/-- C21. The toggle is an involution on valid tasks: `toggleStatus` sends the body
`toggleBody task`; for a task whose status is `TODO` or `DONE`, computing the body twice
gives back the task; for a task with any other status the computed status is `TODO`. -/
theorem toggle_involution (env : Option String)
    (writeServer : RequestConfig → Settled (Response Unit))
    (listServer : RequestConfig → Settled (Response (List Task)))
    (task : Task) (st : TasksState) (b : Browser) :
    (∃ rest : List RequestConfig,
      (Tasks.toggleStatus env writeServer listServer task st b).2.network
        = b.network ++ requestInterceptor b.localStorage
            (tasksAPI.update env task.id (Body.task (Tasks.toggleBody task))) :: rest) ∧
    (task.status = "TODO" ∨ task.status = "DONE" →
      Tasks.toggleBody (Tasks.toggleBody task) = task) ∧
    (task.status ≠ "TODO" → task.status ≠ "DONE" →
      (Tasks.toggleBody task).status = "TODO") := by
  refine ⟨?_, ?_, ?_⟩
  · obtain ⟨rest, hnet, _⟩ := toggleStatus_network env writeServer listServer task st b
      (if task.status = "TODO" then "DONE" else "TODO") rfl
    exact ⟨rest, hnet⟩
  · intro hvalid
    obtain ⟨id, title, description, status, extra⟩ := task
    rcases hvalid with h | h
    · simp only at h
      subst h
      simp [Tasks.toggleBody]
    · simp only at h
      subst h
      simp [Tasks.toggleBody]
  · intro h1 _
    simp [Tasks.toggleBody, h1]

/-- C21 at concrete inputs: a `DONE` task toggled twice is itself, and a task with
status `ARCHIVED` gets status `TODO`. -/
theorem toggle_involution_witness :
    Tasks.toggleBody (Tasks.toggleBody (sampleTask 3 "DONE")) = sampleTask 3 "DONE" ∧
    (Tasks.toggleBody (sampleTask 4 "ARCHIVED")).status = "TODO" :=
  ⟨(toggle_involution none (failServer networkError) (failServer networkError)
      (sampleTask 3 "DONE") sampleTasksState (freshBrowser [])).2.1 (Or.inr rfl),
   (toggle_involution none (failServer networkError) (failServer networkError)
      (sampleTask 4 "ARCHIVED") sampleTasksState (freshBrowser [])).2.2 (by decide)
      (by decide)⟩

/-! ## Consistency of the dashboard counts -/

/-- The two status filters select disjoint parts of a task list, and together the whole
list exactly when every status is `TODO` or `DONE`. -/
theorem status_filters (tasks : List Task) :
    (tasks.filter (fun t => t.status == "TODO")).length
        + (tasks.filter (fun t => t.status == "DONE")).length ≤ tasks.length ∧
    ((tasks.filter (fun t => t.status == "TODO")).length
        + (tasks.filter (fun t => t.status == "DONE")).length = tasks.length
      ↔ ∀ t ∈ tasks, t.status = "TODO" ∨ t.status = "DONE") := by
  induction tasks with
  | nil => simp
  | cons t rest ih =>
    obtain ⟨ihle, iheq⟩ := ih
    have e1 : ¬ ("TODO" : String) = "DONE" := by decide
    have e2 : ¬ ("DONE" : String) = "TODO" := by decide
    by_cases h1 : t.status = "TODO"
    · simp only [List.filter_cons, beq_iff_eq, h1, e1, if_true, if_false, List.length_cons,
        List.mem_cons, forall_eq_or_imp, true_or, true_and]
      constructor
      · omega
      · rw [← iheq]
        omega
    · by_cases h2 : t.status = "DONE"
      · simp only [List.filter_cons, beq_iff_eq, h2, e2, if_true, if_false, List.length_cons,
          List.mem_cons, forall_eq_or_imp, or_true, true_and]
        constructor
        · omega
        · rw [← iheq]
          omega
      · simp only [List.filter_cons, beq_iff_eq, h1, h2, if_false, List.length_cons,
          List.mem_cons, forall_eq_or_imp, or_self, false_and, iff_false]
        constructor
        · omega
        · omega

/-- C22. Dashboard count consistency: `pendingTasks + completedTasks` is at most
`totalTasks`, with equality exactly when every task has status `TODO` or `DONE`, and
`upcomingAppointments` is at most the number of appointments. -/
theorem dashboard_count_consistency (tasks : List Task) (appointments : List Appointment)
    (now : Int) :
    (Dashboard.computeStats tasks appointments now).pendingTasks
        + (Dashboard.computeStats tasks appointments now).completedTasks
      ≤ (Dashboard.computeStats tasks appointments now).totalTasks ∧
    ((Dashboard.computeStats tasks appointments now).pendingTasks
        + (Dashboard.computeStats tasks appointments now).completedTasks
      = (Dashboard.computeStats tasks appointments now).totalTasks
      ↔ ∀ t ∈ tasks, t.status = "TODO" ∨ t.status = "DONE") ∧
    (Dashboard.computeStats tasks appointments now).upcomingAppointments
      ≤ appointments.length := by
  refine ⟨(status_filters tasks).1, (status_filters tasks).2, ?_⟩
  simp only [Dashboard.computeStats, Dashboard.upcoming, length_sortByDate]
  exact List.length_filter_le _ _

/-! ## Recent tasks -/

/-- C23. Recent tasks: `recentTasks` has length `min 5 n` for a task list of length `n`,
it is the beginning of the fetched list in the original order (the fetched list is
`recentTasks` followed by the remaining tasks, and the two agree at every position of
`recentTasks`), and the fetched list itself still has all `n` tasks. -/
theorem recent_tasks (tasks : List Task) (appointments : List Appointment) (now : Int) :
    (Dashboard.computeStats tasks appointments now).recentTasks.length
      = min 5 tasks.length ∧
    tasks = (Dashboard.computeStats tasks appointments now).recentTasks ++ tasks.drop 5 ∧
    (∀ i : Nat, i < (Dashboard.computeStats tasks appointments now).recentTasks.length →
      (Dashboard.computeStats tasks appointments now).recentTasks[i]? = tasks[i]?) ∧
    (Dashboard.computeStats tasks appointments now).totalTasks = tasks.length := by
  refine ⟨?_, ?_, ?_, rfl⟩
  · simp [Dashboard.computeStats, List.length_take]
  · simp [Dashboard.computeStats, List.take_append_drop]
  · intro i hi
    simp only [Dashboard.computeStats, List.length_take] at hi ⊢
    rw [List.getElem?_take]
    have : i < 5 := by omega
    simp [this]

/-- C23 at a concrete input: of seven tasks the first five are recent. -/
theorem recent_tasks_witness :
    (Dashboard.computeStats (sampleTasks ++ [sampleTask 6 "TODO", sampleTask 7 "DONE"]) []
      0).recentTasks[4]? = (sampleTasks ++ [sampleTask 6 "TODO", sampleTask 7 "DONE"])[4]? :=
  (recent_tasks (sampleTasks ++ [sampleTask 6 "TODO", sampleTask 7 "DONE"]) [] 0).2.2.1 4
    (by decide)

/-! ## Loading the dashboard -/

/-- C24. The dashboard load is atomic on failure: `loading` always ends false; if either
of the two fetches (tasks, appointments) fails, `stats` is what it was before the load,
so on the first load all counts are zero, `recentTasks` is empty and `nextAppointment` is
null; `stats` is replaced, by the statistics of the two fetched lists, only when both
fetches succeed. -/
theorem fetchData_atomic (env : Option String)
    (tasksServer : RequestConfig → Settled (Response (List Task)))
    (appointmentsServer : RequestConfig → Settled (Response (List Appointment)))
    (now : Int) (st : DashboardState) (b : Browser) :
    (Dashboard.fetchData env tasksServer appointmentsServer now st b).1.loading = false ∧
    ((∃ e, tasksServer (requestInterceptor b.localStorage (tasksAPI.getAll env))
        = Settled.rejected e) ∨
      (∃ e, appointmentsServer (requestInterceptor b.localStorage (appointmentsAPI.getAll env))
        = Settled.rejected e) →
      (Dashboard.fetchData env tasksServer appointmentsServer now st b).1.stats = st.stats ∧
      (Dashboard.fetchData env tasksServer appointmentsServer now Dashboard.initialState
        b).1.stats
        = { totalTasks := 0, pendingTasks := 0, completedTasks := 0,
            upcomingAppointments := 0, recentTasks := [], nextAppointment := none }) ∧
    (∀ (t : Response (List Task)) (a : Response (List Appointment)),
      tasksServer (requestInterceptor b.localStorage (tasksAPI.getAll env))
        = Settled.fulfilled t →
      appointmentsServer (requestInterceptor b.localStorage (appointmentsAPI.getAll env))
        = Settled.fulfilled a →
      (Dashboard.fetchData env tasksServer appointmentsServer now st b).1.stats
        = Dashboard.computeStats t.data a.data now) := by
  refine ⟨?_, ?_, ?_⟩
  · simp only [Dashboard.fetchData, api.dispatch, api.settle]
    cases tasksServer (requestInterceptor b.localStorage (tasksAPI.getAll env)) <;>
      cases appointmentsServer
        (requestInterceptor b.localStorage (appointmentsAPI.getAll env)) <;>
      simp [responseRejected, responseFulfilled]
  · intro hfail
    simp only [Dashboard.fetchData, api.dispatch, api.settle]
    rcases hfail with ⟨e, he⟩ | ⟨e, he⟩
    · rw [he]
      cases appointmentsServer
        (requestInterceptor b.localStorage (appointmentsAPI.getAll env)) <;>
      simp [responseRejected, responseFulfilled, Dashboard.initialState,
        Dashboard.initialStats]
    · rw [he]
      cases tasksServer (requestInterceptor b.localStorage (tasksAPI.getAll env)) <;>
      simp [responseRejected, responseFulfilled, Dashboard.initialState,
        Dashboard.initialStats]
  · intro t a ht ha
    simp only [Dashboard.fetchData, api.dispatch, api.settle]
    rw [ht, ha]
    simp [responseFulfilled]

/-- C24 at a concrete input: the first load with a failing tasks fetch keeps the
initial statistics. -/
theorem fetchData_atomic_witness :
    (Dashboard.fetchData none (failServer networkError)
      (fun _ => Settled.fulfilled { status := 200, data := sampleAppointments 0 }) 0
      Dashboard.initialState (freshBrowser [])).1.stats = Dashboard.initialState.stats :=
  ((fetchData_atomic none (failServer networkError)
    (fun _ => Settled.fulfilled { status := 200, data := sampleAppointments 0 }) 0
    Dashboard.initialState (freshBrowser [])).2.1 (Or.inl ⟨networkError, rfl⟩)).1

/-! ## Registration validation, exactly -/

/-- An entry found after a removal was there before it. -/
theorem lookupKey_removeKey_some (d : Dict) (key other value : String)
    (h : lookupKey (removeKey d key) other = some value) : lookupKey d other = some value := by
  by_cases hk : other = key
  · rw [hk, lookupKey_removeKey_self] at h
    exact absurd h (by simp)
  · rwa [lookupKey_removeKey_ne d key other hk] at h

/-- The response error handler never adds an entry to storage. -/
theorem responseRejected_storage {α : Type} (error : AxiosError) (b : Browser)
    (key value : String)
    (h : getItem (responseRejected error b : Browser × Settled α).1.localStorage key
      = some value) :
    getItem b.localStorage key = some value := by
  simp only [responseRejected] at h
  split_ifs at h
  · simp only [assignHref, getItem, removeItem] at h
    exact lookupKey_removeKey_some _ _ _ _ (lookupKey_removeKey_some _ _ _ _ h)
  · exact h

/-- C25. Registration validation is exact and ordered: the registration request is sent
(once, as a `POST` to `/auth/register` with the email and password of the form) if and
only if the password equals its confirmation and has at least 4 characters (as `length`
counts them), and otherwise no request is sent; when both checks fail the error shown is
`Passwords do not match`; storage gains an entry only when the checks pass and the server
answers the registration successfully, and then `token` and `email` hold the values of
the response. -/
theorem register_validation_exact (env : Option String)
    (server : RequestConfig → Settled (Response AuthData)) (st : RegisterState)
    (b : Browser) :
    (Register.handleSubmit env server st b).2.network
      = b.network ++
        (if st.password = st.confirmPassword ∧ 4 ≤ jsLength st.password then
          [requestInterceptor b.localStorage (authAPI.register env st.email st.password)]
        else []) ∧
    (requestInterceptor b.localStorage (authAPI.register env st.email st.password)).summary
      = ("post", "/auth/register", some (Body.credentials st.email st.password)) ∧
    (st.password ≠ st.confirmPassword → jsLength st.password < 4 →
      (Register.handleSubmit env server st b).1.error = "Passwords do not match") ∧
    (∀ key value : String,
      getItem (Register.handleSubmit env server st b).2.localStorage key = some value →
      getItem b.localStorage key ≠ some value →
      (st.password = st.confirmPassword ∧ 4 ≤ jsLength st.password) ∧
      ∃ response : Response AuthData,
        server (requestInterceptor b.localStorage (authAPI.register env st.email st.password))
          = Settled.fulfilled response) ∧
    (∀ response : Response AuthData,
      st.password = st.confirmPassword → 4 ≤ jsLength st.password →
      server (requestInterceptor b.localStorage (authAPI.register env st.email st.password))
        = Settled.fulfilled response →
      getItem (Register.handleSubmit env server st b).2.localStorage "token"
        = some response.data.token ∧
      getItem (Register.handleSubmit env server st b).2.localStorage "email"
        = some response.data.email) := by
  have hinvalid : ¬ (st.password = st.confirmPassword ∧ 4 ≤ jsLength st.password) →
      (Register.handleSubmit env server st b).2 = b := by
    intro hnot
    unfold Register.handleSubmit
    by_cases hm : st.password = st.confirmPassword
    · have hshort : jsLength st.password < 4 := by
        by_contra hge
        exact hnot ⟨hm, by omega⟩
      rw [if_neg (not_not.2 hm), if_pos hshort]
    · rw [if_pos hm]
  refine ⟨?_, ?_, ?_, ?_, ?_⟩
  · by_cases hvalid : st.password = st.confirmPassword ∧ 4 ≤ jsLength st.password
    · rw [if_pos hvalid, register_checks_passed env server st b hvalid.1 (by omega)]
      have hn := api_send_network server (authAPI.register env st.email st.password) b
      rcases hsend : api.send server (authAPI.register env st.email st.password) b with
        ⟨b1, res⟩
      rw [hsend] at hn
      cases res with
      | fulfilled response => simpa [navigate] using hn
      | rejected err => simpa using hn
    · rw [if_neg hvalid, hinvalid hvalid, List.append_nil]
  · obtain ⟨h1, h2, _, h4⟩ := requestInterceptor_frame b.localStorage
      (authAPI.register env st.email st.password)
    simp only [RequestConfig.summary, h1, h2, h4]
    rfl
  · intro hm _
    unfold Register.handleSubmit
    rw [if_pos hm]
  · intro key value hafter hbefore
    by_cases hvalid : st.password = st.confirmPassword ∧ 4 ≤ jsLength st.password
    · refine ⟨hvalid, ?_⟩
      rw [register_checks_passed env server st b hvalid.1 (by omega)] at hafter
      simp only [api.send, api.dispatch, api.settle] at hafter
      cases hs : server
          (requestInterceptor b.localStorage (authAPI.register env st.email st.password)) with
      | fulfilled response => exact ⟨response, rfl⟩
      | rejected err =>
        rw [hs] at hafter
        change getItem (responseRejected err
          { b with network := b.network ++ [requestInterceptor b.localStorage
              (authAPI.register env st.email st.password)] } :
            Browser × Settled (Response AuthData)).1.localStorage key = some value at hafter
        exact absurd (responseRejected_storage err _ key value hafter) hbefore
    · rw [hinvalid hvalid] at hafter
      exact absurd hafter hbefore
  · intro response hm h4 hs
    rw [register_checks_passed env server st b hm (by omega)]
    simp only [api.send, api.dispatch, api.settle, hs, responseFulfilled, navigate, getItem,
      setItem]
    constructor
    · rw [lookupKey_insertKey_ne _ _ _ _ (by decide)]
      exact lookupKey_insertKey_self _ _ _
    · exact lookupKey_insertKey_self _ _ _

/-- C25 at a concrete input: with password `ab` and confirmation `abc` both checks fail
and the mismatch message is shown. -/
theorem register_validation_exact_witness :
    (Register.handleSubmit none (okServer ⟨"abc", "ann@example.com"⟩)
      { sampleRegistration with password := "ab", confirmPassword := "abc" }
      (freshBrowser [])).1.error = "Passwords do not match" :=
  (register_validation_exact none (okServer ⟨"abc", "ann@example.com"⟩)
    { sampleRegistration with password := "ab", confirmPassword := "abc" }
    (freshBrowser [])).2.2.1 (by decide) (by decide)

end Taskify
